import Mathlib

/-!
Verification development for the cno HTTP/1.x + HTTP/2 protocol engine
(src/cno/core.c).  The engine's pure logic is shallowly embedded here:
byte buffers become lists of naturals (each element a byte value),
machine integers become Nat/Int with explicit reductions modulo 2^w where
the C code can overflow, and error returns become Except / Option values.
Callback invocations (which are external collaborators) are modelled as
always succeeding and are recorded as events.
-/

set_option linter.unusedVariables false

/-- Error codes returned to the caller, from the spec's error-code surface
(the numeric enum lives in the header, which is external to core.c). -/
inductive CNO_ERRNO where
  | ASSERTION
  | NO_MEMORY
  | NOT_IMPLEMENTED
  | PROTOCOL
  | INVALID_STREAM
  | WOULD_BLOCK
  | DISCONNECT
deriving DecidableEq, Repr

/-- Modelled from the spec: HTTP/2 frame type codes, in the order of the
handler table CNO_FRAME_HANDLERS in core.c (which is synced to the enum). -/
def CNO_FRAME_DATA : Nat := 0
def CNO_FRAME_HEADERS : Nat := 1
def CNO_FRAME_PRIORITY : Nat := 2
def CNO_FRAME_RST_STREAM : Nat := 3
def CNO_FRAME_SETTINGS : Nat := 4
def CNO_FRAME_PUSH_PROMISE : Nat := 5
def CNO_FRAME_PING : Nat := 6
def CNO_FRAME_GOAWAY : Nat := 7
def CNO_FRAME_WINDOW_UPDATE : Nat := 8
def CNO_FRAME_CONTINUATION : Nat := 9
def CNO_FRAME_UNKNOWN : Nat := 10

/-- Modelled from the spec: RFC 7540 frame flag bits used by core.c. -/
def CNO_FLAG_ACK : Nat := 1
def CNO_FLAG_END_STREAM : Nat := 1
def CNO_FLAG_END_HEADERS : Nat := 4
def CNO_FLAG_PADDED : Nat := 8
def CNO_FLAG_PRIORITY : Nat := 32

/-- Modelled from the spec: RFC 7540 RST_STREAM / GOAWAY error codes. -/
def CNO_RST_NO_ERROR : Nat := 0
def CNO_RST_PROTOCOL_ERROR : Nat := 1
def CNO_RST_FLOW_CONTROL_ERROR : Nat := 3
def CNO_RST_STREAM_CLOSED : Nat := 5
def CNO_RST_FRAME_SIZE_ERROR : Nat := 6
def CNO_RST_REFUSED_STREAM : Nat := 7
def CNO_RST_ENHANCE_YOUR_CALM : Nat := 11
def CNO_RST_COMPRESSION_ERROR : Nat := 9

/-- Modelled from the spec: connection states, in the order of the
CNO_STATE_MACHINE table in core.c (synced to enum CNO_CONNECTION_STATE). -/
def CNO_STATE_CLOSED : Nat := 0
def CNO_STATE_H2_INIT : Nat := 1
def CNO_STATE_H2_PREFACE : Nat := 2
def CNO_STATE_H2_SETTINGS : Nat := 3
def CNO_STATE_H2_FRAME : Nat := 4
def CNO_STATE_H1_HEAD : Nat := 5
def CNO_STATE_H1_BODY : Nat := 6
def CNO_STATE_H1_TAIL : Nat := 7
def CNO_STATE_H1_CHUNK : Nat := 8
def CNO_STATE_H1_CHUNK_BODY : Nat := 9
def CNO_STATE_H1_CHUNK_TAIL : Nat := 10
def CNO_STATE_H1_TRAILERS : Nat := 11

/-- Modelled from the spec: read/write half-states of a stream. -/
def CNO_STREAM_HEADERS : Nat := 0
def CNO_STREAM_DATA : Nat := 1
def CNO_STREAM_CLOSED : Nat := 2

/-- Modelled from the spec: protocol modes. -/
def CNO_HTTP1 : Nat := 0
def CNO_HTTP2 : Nat := 1

/-- Value of (uint64_t)-1 and of (size_t)-1 on the 64-bit targets the
engine is written for. -/
def UINT64_MAX : Nat := 18446744073709551615

/-- Wrap-around modulus for 64-bit unsigned arithmetic. -/
def U64_MOD : Nat := 18446744073709551616

/-- An HTTP/2 frame as core.c represents it: type, flags, stream id, and
the payload as a byte list. -/
structure cno_frame_t where
  ftype : Nat
  flags : Nat
  stream : Nat
  payload : List Nat
deriving DecidableEq, Repr

/-- Big-endian 32-bit serialization, as the I32 byte-packing macro. -/
def i32 (n : Nat) : List Nat :=
  [n / 16777216 % 256, n / 65536 % 256, n / 256 % 256, n % 256]

/-- Big-endian 16-bit serialization, as the I16 byte-packing macro. -/
def i16 (n : Nat) : List Nat :=
  [n / 256 % 256, n % 256]

/-- Function read2 of core.c: big-endian 16-bit read. -/
def read2 (p : List Nat) : Nat :=
  p.getD 0 0 * 256 + p.getD 1 0

/-- Function read4 of core.c: big-endian 32-bit read. -/
def read4 (p : List Nat) : Nat :=
  p.getD 0 0 * 16777216 + p.getD 1 0 * 65536 + p.getD 2 0 * 256 + p.getD 3 0

/-- Loop body of cno_frame_write for oversized frames.  Each iteration of
the C loop emits a frame with `limit` bytes of payload, retypes a non-DATA
frame to CONTINUATION and strips PRIORITY/END_STREAM, and the final write
re-adds the carried flag.  `fuel` bounds the recursion; callers pass at
least `payload.length + 1`, which suffices whenever `0 < limit`. -/
def cno_frame_write_loop (fuel limit ftype flags carry sid : Nat)
    (payload : List Nat) : List cno_frame_t :=
  match fuel with
  | 0 => []
  | fuel + 1 =>
    if payload.length ≤ limit then
      [⟨ftype, flags ||| carry, sid, payload⟩]
    else
      ⟨ftype, flags, sid, payload.take limit⟩ ::
        cno_frame_write_loop fuel limit
          (if ftype = CNO_FRAME_DATA then ftype else CNO_FRAME_CONTINUATION)
          (flags &&& (255 ^^^ (CNO_FLAG_PRIORITY ||| CNO_FLAG_END_STREAM)))
          carry sid (payload.drop limit)

/-- Function cno_frame_write of core.c.  `limit` is
conn->settings[CNO_REMOTE].max_frame_size.  Returns the frames emitted
through the writev callback (header and payload of each are fused into a
cno_frame_t), or the error the C function returns. -/
def cno_frame_write (limit : Nat) (f : cno_frame_t) :
    Except CNO_ERRNO (List cno_frame_t) :=
  if f.payload.length ≤ limit then
    .ok [f]
  else if f.ftype ≠ CNO_FRAME_HEADERS ∧ f.ftype ≠ CNO_FRAME_PUSH_PROMISE ∧
      f.ftype ≠ CNO_FRAME_DATA then
    .error .ASSERTION
  else if f.flags &&& CNO_FLAG_PADDED ≠ 0 then
    .error .NOT_IMPLEMENTED
  else
    let carry := f.flags &&&
      (if f.ftype = CNO_FRAME_DATA then CNO_FLAG_END_STREAM else CNO_FLAG_END_HEADERS)
    .ok (cno_frame_write_loop (f.payload.length + 1) limit f.ftype
      (f.flags &&& (255 ^^^ carry)) carry f.stream f.payload)

/-- Loop of cno_parse_uint: the accumulator is the C variable that was
`ret` at the end of the previous iteration (and `prev` at the start of the
current one). -/
def cno_parse_uint_loop : Nat → List Nat → Nat
  | ret, [] => ret
  | ret, c :: rest =>
    if c < 48 ∨ 57 < c then UINT64_MAX
    else
      let r := (ret * 10 + (c - 48)) % U64_MOD
      if r < ret then UINT64_MAX else cno_parse_uint_loop r rest

/-- Function cno_parse_uint of core.c: decimal parse with 64-bit
wrap-around, returning (uint64_t)-1 on a non-digit or when the
`ret < prev` check fires. -/
def cno_parse_uint (value : List Nat) : Nat :=
  cno_parse_uint_loop 0 value

/-- Decimal value of a digit string, used to state what the parse should
produce. -/
def decimalValue (value : List Nat) : Nat :=
  value.foldl (fun a c => a * 10 + (c - 48)) 0

/-- Predicate: every byte is an ASCII decimal digit. -/
def allDigits (value : List Nat) : Prop :=
  ∀ c ∈ value, 48 ≤ c ∧ c ≤ 57

instance (value : List Nat) : Decidable (allDigits value) := by
  unfold allDigits; infer_instance

/-- Hex-digit value as the chunk-size loop of cno_when_h1_chunk computes
it.  Mirrors the source faithfully: the branches for letters return
`c - 0x41` and `c - 0x61` without the +10 offset, and any other byte
contributes (size_t)-1. -/
def cno_h1_chunk_digit (c : Nat) : Nat :=
  if 48 ≤ c ∧ c ≤ 57 then c - 48
  else if 65 ≤ c ∧ c ≤ 70 then c - 65
  else if 97 ≤ c ∧ c ≤ 102 then c - 97
  else UINT64_MAX

/-- Mathematical hexadecimal value of a digit string (what RFC 7230
chunk-size lines denote); used to state the specified behaviour. -/
def hexValue (value : List Nat) : Option Nat :=
  value.foldl
    (fun a c =>
      match a with
      | none => none
      | some v =>
        if 48 ≤ c ∧ c ≤ 57 then some (v * 16 + (c - 48))
        else if 65 ≤ c ∧ c ≤ 70 then some (v * 16 + (c - 65 + 10))
        else if 97 ≤ c ∧ c ≤ 102 then some (v * 16 + (c - 97 + 10))
        else none)
    (some 0)

/-- Result of a tri-state connection-state handler: wait for more data,
error, or transition to a new state carrying updated fields. -/
inductive cno_chunk_result where
  | wait
  | err (e : CNO_ERRNO)
  | next (state : Nat) (remaining : Nat) (buffer : List Nat)
deriving DecidableEq, Repr

/-- Suffix of the list after the first occurrence of byte `b`, or none if
absent; models memchr plus pointer arithmetic up to the found byte. -/
def afterByte (b : Nat) : List Nat → Option (List Nat)
  | [] => none
  | c :: rest => if c = b then some rest else afterByte b rest

/-- Scanning loop of cno_when_h1_chunk: walk the buffer until CR, LF or
`;`, accumulating the chunk size in 64-bit wrap-around arithmetic with the
`length < prev` check of the source.  `afterEol` is the buffer suffix past
the first LF (guaranteed to exist by the caller).  The empty-list case is
unreachable because the scan stops at that LF at the latest. -/
def cno_h1_chunk_scan (len : Nat) (afterEol : List Nat) :
    List Nat → cno_chunk_result
  | [] => .err .PROTOCOL
  | c :: rest =>
    if c = 13 ∨ c = 10 ∨ c = 59 then
      if c = 59 then
        .next (if len = 0 then CNO_STATE_H1_TRAILERS else CNO_STATE_H1_CHUNK_BODY)
          len afterEol
      else if c = 13 then
        match rest with
        | 10 :: rest2 =>
          .next (if len = 0 then CNO_STATE_H1_TRAILERS else CNO_STATE_H1_CHUNK_BODY)
            len rest2
        | _ => .err .PROTOCOL
      else .err .PROTOCOL
    else
      let len2 := (len * 16 + cno_h1_chunk_digit c) % U64_MOD
      if len2 < len then .err .PROTOCOL
      else cno_h1_chunk_scan len2 afterEol rest

/-- Function cno_when_h1_chunk of core.c.  `max_frame_size` is
conn->settings[CNO_LOCAL].max_frame_size; `buffer` is the input buffer.
On success the result carries the next connection state, the value stored
into remaining_h1_payload, and the shifted buffer. -/
def cno_when_h1_chunk (max_frame_size : Nat) (buffer : List Nat) :
    cno_chunk_result :=
  match afterByte 10 buffer with
  | none => if buffer.length ≥ max_frame_size then .err .PROTOCOL else .wait
  | some afterEol => cno_h1_chunk_scan 0 afterEol buffer

/-- A stream object, as struct cno_stream_t of the engine (hash-bucket
link omitted: the table is modelled as a list). -/
structure cno_stream_t where
  id : Nat
  r_state : Nat := CNO_STREAM_HEADERS
  w_state : Nat := CNO_STREAM_HEADERS
  window_recv : Int := 0
  window_send : Int := 0
  remaining_payload : Nat := 0
  reading_head_response : Bool := false
  writing_chunked : Bool := false
deriving DecidableEq, Repr

/-- The six-parameter settings vector, struct cno_settings_t. -/
structure cno_settings_t where
  header_table_size : Nat
  enable_push : Nat
  max_concurrent_streams : Nat
  initial_window_size : Nat
  max_frame_size : Nat
  max_header_list_size : Nat
deriving DecidableEq, Repr

/-- CNO_SETTINGS_STANDARD of core.c ((uint32_t)-1 written out). -/
def CNO_SETTINGS_STANDARD : cno_settings_t :=
  ⟨4096, 1, 4294967295, 65535, 16384, 4294967295⟩

/-- CNO_SETTINGS_CONSERVATIVE of core.c. -/
def CNO_SETTINGS_CONSERVATIVE : cno_settings_t :=
  ⟨4096, 0, 100, 65535, 16384, 4294967295⟩

/-- CNO_SETTINGS_INITIAL of core.c. -/
def CNO_SETTINGS_INITIAL : cno_settings_t :=
  ⟨4096, 1, 1024, 65535, 16384, 4294967295⟩

/-- Modelled from the spec: one-past-the-last settings index (the vector
has exactly six parameters, keys 1 through 6). -/
def CNO_SETTINGS_UNDEFINED : Nat := 7

/-- Write settings parameter `k` (1-based wire key) of the union's array
view, as `cfg->array[setting - 1] = value`. -/
def cno_settings_set (s : cno_settings_t) (k v : Nat) : cno_settings_t :=
  if k = 1 then { s with header_table_size := v }
  else if k = 2 then { s with enable_push := v }
  else if k = 3 then { s with max_concurrent_streams := v }
  else if k = 4 then { s with initial_window_size := v }
  else if k = 5 then { s with max_frame_size := v }
  else if k = 6 then { s with max_header_list_size := v }
  else s

/-- Decode a SETTINGS payload into (key, value) pairs, six octets at a
time, as the pointer loop of cno_frame_handle_settings. -/
def cno_settings_entries : List Nat → List (Nat × Nat)
  | a :: b :: c :: d :: e :: f :: rest =>
    (a * 256 + b, c * 16777216 + d * 65536 + e * 256 + f) ::
      cno_settings_entries rest
  | _ => []

/-- Apply decoded SETTINGS entries: keys outside 1..6 are ignored, known
keys overwrite the parameter, later entries win. -/
def cno_settings_apply (s : cno_settings_t) : List (Nat × Nat) → cno_settings_t
  | [] => s
  | (k, v) :: rest =>
    cno_settings_apply
      (if k ≠ 0 ∧ k < CNO_SETTINGS_UNDEFINED then cno_settings_set s k v else s)
      rest

/-- Modelled from the spec: the reset-history ring has a fixed length of
at least two entries; the exact header constant is not in src, so the
minimum is used.  No claim depends on the exact length. -/
def CNO_STREAM_RESET_HISTORY : Nat := 2

/-- Connection object: the subset of struct cno_connection_t that the
verified operations read or write.  last_stream and stream_count are kept
as separate remote/local fields instead of 2-arrays. -/
structure cno_connection_t where
  client : Bool
  mode : Nat := CNO_HTTP1
  state : Nat := CNO_STATE_CLOSED
  buffer : List Nat := []
  window_send : Int := 65535
  window_recv : Int := 65535
  settings_remote : cno_settings_t := CNO_SETTINGS_CONSERVATIVE
  settings_local : cno_settings_t := CNO_SETTINGS_INITIAL
  last_stream_remote : Nat := 0
  last_stream_local : Nat := 0
  stream_count_remote : Nat := 0
  stream_count_local : Nat := 0
  goaway_sent : Nat := 0
  recently_reset : List Nat := List.replicate CNO_STREAM_RESET_HISTORY 0
  recently_reset_next : Nat := 0
  streams : List cno_stream_t := []
  encoder_limit_upper : Nat := 4096
  encoder_limit : Nat := 4096
deriving DecidableEq, Repr

/-- Index conn->last_stream[local] with a Bool side (true = CNO_LOCAL). -/
def lastStream (conn : cno_connection_t) (loc : Bool) : Nat :=
  if loc then conn.last_stream_local else conn.last_stream_remote

/-- Index conn->stream_count[local]. -/
def streamCount (conn : cno_connection_t) (loc : Bool) : Nat :=
  if loc then conn.stream_count_local else conn.stream_count_remote

deriving instance DecidableEq for Except

/-- Callback invocations recorded by the model (all callbacks are assumed
to return 0, i.e. not abort). -/
inductive cno_event where
  | on_flow_increase (sid : Nat)
  | on_settings
  | on_stream_start (sid : Nat)
  | on_stream_end (sid : Nat)
  | on_pong
deriving DecidableEq, Repr

/-- Result of one engine operation: the value returned to the caller, the
updated connection, the frames pushed through writev, and the callbacks
fired (in order). -/
structure cno_handler_result where
  ret : Except CNO_ERRNO Unit
  conn : cno_connection_t
  frames : List cno_frame_t
  events : List cno_event
deriving DecidableEq, Repr

/-- Function cno_stream_is_local: even streams belong to the server, odd
to the client. -/
def cno_stream_is_local (conn : cno_connection_t) (id : Nat) : Bool :=
  id % 2 = (if conn.client then 1 else 0)

/-- Function cno_stream_find: lookup in the stream table. -/
def cno_stream_find (conn : cno_connection_t) (id : Nat) : Option cno_stream_t :=
  conn.streams.find? (fun s => s.id = id)

/-- Function cno_stream_new.  Models the callback on_stream_start as
succeeding; on success it returns the fresh stream and the connection with
last_stream / stream_count updated and the stream linked in. -/
def cno_stream_new (conn : cno_connection_t) (id : Nat) (loc : Bool) :
    Except CNO_ERRNO (cno_stream_t × cno_connection_t) :=
  if cno_stream_is_local conn id ≠ loc then
    .error (if loc then .INVALID_STREAM else .PROTOCOL)
  else if id ≤ lastStream conn loc then
    .error (if loc then .INVALID_STREAM else .PROTOCOL)
  else if streamCount conn loc ≥
      (if conn.mode = CNO_HTTP2 then
        (if loc then conn.settings_remote else conn.settings_local).max_concurrent_streams
      else 1) then
    .error (if loc then .WOULD_BLOCK else .PROTOCOL)
  else
    let stream : cno_stream_t :=
      { id := id
        r_state := if id % 2 ≠ 0 ∨ ¬loc then CNO_STREAM_HEADERS else CNO_STREAM_CLOSED
        w_state := if id % 2 ≠ 0 ∨ loc then CNO_STREAM_HEADERS else CNO_STREAM_CLOSED }
    let conn :=
      if loc then
        { conn with last_stream_local := id, streams := stream :: conn.streams,
                    stream_count_local := conn.stream_count_local + 1 }
      else
        { conn with last_stream_remote := id, streams := stream :: conn.streams,
                    stream_count_remote := conn.stream_count_remote + 1 }
    .ok (stream, conn)

/-- Function cno_stream_free: unlink and drop the stream. -/
def cno_stream_free (conn : cno_connection_t) (stream : cno_stream_t) :
    cno_connection_t :=
  let conn := { conn with streams := conn.streams.filter (fun s => s.id ≠ stream.id) }
  if cno_stream_is_local conn stream.id then
    { conn with stream_count_local := conn.stream_count_local - 1 }
  else
    { conn with stream_count_remote := conn.stream_count_remote - 1 }

/-- Function cno_stream_end: unlink and fire on_stream_end. -/
def cno_stream_end (conn : cno_connection_t) (stream : cno_stream_t) :
    cno_connection_t × List cno_event :=
  (cno_stream_free conn stream, [.on_stream_end stream.id])

/-- Function cno_stream_end_by_local: record the id (with the
still-expecting-HEADERS bit in bit 31) in the reset-history ring when the
read half was not closed, then end the stream. -/
def cno_stream_end_by_local (conn : cno_connection_t) (stream : cno_stream_t) :
    cno_connection_t × List cno_event :=
  let conn :=
    if stream.r_state ≠ CNO_STREAM_CLOSED then
      { conn with
        recently_reset := conn.recently_reset.set conn.recently_reset_next
          (stream.id ||| (if stream.r_state = CNO_STREAM_HEADERS then 2147483648 else 0))
        recently_reset_next := (conn.recently_reset_next + 1) % CNO_STREAM_RESET_HISTORY }
    else conn
  cno_stream_end conn stream

/-- Function cno_frame_write_goaway: latch goaway_sent to the last REMOTE
stream id on first use, then emit a GOAWAY frame carrying it and the code. -/
def cno_frame_write_goaway (conn : cno_connection_t) (code : Nat) :
    cno_handler_result :=
  let conn :=
    if conn.goaway_sent = 0 then { conn with goaway_sent := conn.last_stream_remote }
    else conn
  match cno_frame_write conn.settings_remote.max_frame_size
      ⟨CNO_FRAME_GOAWAY, 0, 0, i32 conn.goaway_sent ++ i32 code⟩ with
  | .ok fs => ⟨.ok (), conn, fs, []⟩
  | .error e => ⟨.error e, conn, [], []⟩

/-- Macro cno_frame_write_error: send GOAWAY with the given code, then
fail with PROTOCOL (or with the write's own error). -/
def cno_frame_write_error (conn : cno_connection_t) (code : Nat) :
    cno_handler_result :=
  let g := cno_frame_write_goaway conn code
  if g.ret = .ok () then { g with ret := .error .PROTOCOL } else g

/-- Function cno_frame_write_rst_stream_by_id. -/
def cno_frame_write_rst_stream_by_id (conn : cno_connection_t) (id code : Nat) :
    cno_handler_result :=
  match cno_frame_write conn.settings_remote.max_frame_size
      ⟨CNO_FRAME_RST_STREAM, 0, id, i32 code⟩ with
  | .ok fs => ⟨.ok (), conn, fs, []⟩
  | .error e => ⟨.error e, conn, [], []⟩

/-- Function cno_frame_write_rst_stream: emit RST_STREAM, then destroy the
stream locally through the reset-history path. -/
def cno_frame_write_rst_stream (conn : cno_connection_t) (stream : cno_stream_t)
    (code : Nat) : cno_handler_result :=
  let w := cno_frame_write_rst_stream_by_id conn stream.id code
  match w.ret with
  | .error _ => w
  | .ok _ =>
    let (conn2, evs) := cno_stream_end_by_local w.conn stream
    ⟨.ok (), conn2, w.frames, evs⟩

/-- Function cno_frame_handle_invalid_stream: frames on recently-reset
streams are silently ignored; anything else is a connection error. -/
def cno_frame_handle_invalid_stream (conn : cno_connection_t)
    (frame : cno_frame_t) : cno_handler_result :=
  if frame.stream ≠ 0 ∧
      frame.stream ≤ lastStream conn (cno_stream_is_local conn frame.stream) ∧
      (List.range CNO_STREAM_RESET_HISTORY).any (fun i =>
        (frame.ftype ≠ CNO_FRAME_HEADERS ∧
          conn.recently_reset.getD i 0 = frame.stream) ∨
        (frame.ftype ≠ CNO_FRAME_DATA ∧
          conn.recently_reset.getD i 0 = frame.stream ||| 2147483648)) then
    ⟨.ok (), conn, [], []⟩
  else
    cno_frame_write_error conn CNO_RST_PROTOCOL_ERROR

/-- Replace the stream with the given id in the table (models in-place
mutation of the stream object found by the dispatcher). -/
def streamsReplace (conn : cno_connection_t) (s : cno_stream_t) :
    cno_connection_t :=
  { conn with streams := conn.streams.map (fun t => if t.id = s.id then s else t) }

/-- Function cno_frame_handle_window_update of core.c.  `stream` is the
dispatcher's lookup result for frame->stream. -/
def cno_frame_handle_window_update (conn : cno_connection_t)
    (stream : Option cno_stream_t) (frame : cno_frame_t) : cno_handler_result :=
  if frame.payload.length ≠ 4 then
    cno_frame_write_error conn CNO_RST_FRAME_SIZE_ERROR
  else
    let increment := read4 frame.payload
    if increment = 0 ∨ increment > 2147483647 then
      cno_frame_write_error conn CNO_RST_PROTOCOL_ERROR
    else if frame.stream = 0 then
      let conn := { conn with window_send := conn.window_send + increment }
      if conn.window_send > 2147483647 then
        cno_frame_write_error conn CNO_RST_FLOW_CONTROL_ERROR
      else
        ⟨.ok (), conn, [], [.on_flow_increase frame.stream]⟩
    else
      match stream with
      | some s =>
        let s := { s with window_send := s.window_send + increment }
        if s.window_send + (conn.settings_remote.initial_window_size : Int)
            > 2147483647 then
          cno_frame_write_rst_stream conn s CNO_RST_FLOW_CONTROL_ERROR
        else
          ⟨.ok (), streamsReplace conn s, [], [.on_flow_increase frame.stream]⟩
      | none => cno_frame_handle_invalid_stream conn frame

/-- Function cno_frame_handle_settings of core.c.  Callbacks are modelled
as succeeding; cno_hpack_setlimit is modelled as storing its argument in
encoder_limit. -/
def cno_frame_handle_settings (conn : cno_connection_t) (frame : cno_frame_t) :
    cno_handler_result :=
  if frame.stream ≠ 0 then
    cno_frame_write_error conn CNO_RST_PROTOCOL_ERROR
  else if frame.flags &&& CNO_FLAG_ACK ≠ 0 then
    if frame.payload.length ≠ 0 then
      cno_frame_write_error conn CNO_RST_FRAME_SIZE_ERROR
    else
      ⟨.ok (), conn, [], []⟩
  else if frame.payload.length % 6 ≠ 0 then
    cno_frame_write_error conn CNO_RST_FRAME_SIZE_ERROR
  else
    let old_window := conn.settings_remote.initial_window_size
    let cfg := cno_settings_apply conn.settings_remote
      (cno_settings_entries frame.payload)
    let conn := { conn with settings_remote := cfg }
    if cfg.enable_push > 1 then
      cno_frame_write_error conn CNO_RST_PROTOCOL_ERROR
    else if cfg.initial_window_size > 2147483647 then
      cno_frame_write_error conn CNO_RST_FLOW_CONTROL_ERROR
    else if cfg.max_frame_size < 16384 ∨ cfg.max_frame_size > 16777215 then
      cno_frame_write_error conn CNO_RST_PROTOCOL_ERROR
    else
      let flowEvents : List cno_event :=
        if cfg.initial_window_size > old_window then [.on_flow_increase 0] else []
      let lim :=
        if cfg.header_table_size > conn.settings_local.header_table_size then
          conn.settings_local.header_table_size
        else cfg.header_table_size
      let conn := { conn with
        encoder_limit_upper := cfg.header_table_size, encoder_limit := lim }
      match cno_frame_write conn.settings_remote.max_frame_size
          ⟨CNO_FRAME_SETTINGS, CNO_FLAG_ACK, 0, []⟩ with
      | .ok fs => ⟨.ok (), conn, fs, flowEvents ++ [.on_settings]⟩
      | .error e => ⟨.error e, conn, [], flowEvents⟩

/-- Function cno_write_reset: no-op outside HTTP/2 mode; stream 0 sends
GOAWAY; otherwise RST_STREAM an existing stream (idle streams are assumed
already reset). -/
def cno_write_reset (conn : cno_connection_t) (stream code : Nat) :
    cno_handler_result :=
  if conn.mode ≠ CNO_HTTP2 then
    ⟨.ok (), conn, [], []⟩
  else if stream = 0 then
    cno_frame_write_goaway conn code
  else
    match cno_stream_find conn stream with
    | some s => cno_frame_write_rst_stream conn s code
    | none => ⟨.ok (), conn, [], []⟩

/-- Function cno_connection_stop: shutdown is a reset of stream 0 with
NO_ERROR. -/
def cno_connection_stop (conn : cno_connection_t) : cno_handler_result :=
  cno_write_reset conn 0 CNO_RST_NO_ERROR

/-- Outcome of one per-state handler of the top-level state machine:
an error, a request for more data (none), or the next state (some). -/
structure cno_step_out where
  r : Except CNO_ERRNO (Option Nat)
  conn : cno_connection_t
  frames : List cno_frame_t
  events : List cno_event

/-- Dispatch loop of cno_connection_data_received: run the per-state
handler until it reports an error or asks for more data.  The handler
table is abstracted as `step` (it may read conn.state); the guard clause
under verification does not depend on it. -/
def cno_data_received_loop (step : cno_connection_t → cno_step_out) :
    Nat → cno_connection_t → List cno_frame_t → List cno_event →
    cno_handler_result
  | 0, conn, fs, evs => ⟨.ok (), conn, fs, evs⟩
  | fuel + 1, conn, fs, evs =>
    let o := step conn
    match o.r with
    | .error e => ⟨.error e, o.conn, fs ++ o.frames, evs ++ o.events⟩
    | .ok none => ⟨.ok (), o.conn, fs ++ o.frames, evs ++ o.events⟩
    | .ok (some s) =>
      cno_data_received_loop step fuel { o.conn with state := s }
        (fs ++ o.frames) (evs ++ o.events)

/-- Function cno_connection_data_received of core.c: refuse input on a
CLOSED connection, otherwise append to the buffer and drive the state
machine. -/
def cno_connection_data_received (step : cno_connection_t → cno_step_out)
    (fuel : Nat) (conn : cno_connection_t) (data : List Nat) :
    cno_handler_result :=
  if conn.state = CNO_STATE_CLOSED then
    ⟨.error .DISCONNECT, conn, [], []⟩
  else
    cno_data_received_loop step fuel { conn with buffer := conn.buffer ++ data } [] []

/-- A decoded header: name and value byte lists, as struct cno_header_t. -/
structure cno_header_t where
  name : List Nat
  value : List Nat
deriving DecidableEq, Repr

/-- Byte list of the pseudo-header name with code 58 115 116 97 116 117 115
(colon followed by the word status). -/
def hSTATUS : List Nat := [58, 115, 116, 97, 116, 117, 115]

/-- Byte list of the path pseudo-header name. -/
def hPATH : List Nat := [58, 112, 97, 116, 104]

/-- Byte list of the method pseudo-header name. -/
def hMETHOD : List Nat := [58, 109, 101, 116, 104, 111, 100]

/-- Byte list of the authority pseudo-header name. -/
def hAUTHORITY : List Nat := [58, 97, 117, 116, 104, 111, 114, 105, 116, 121]

/-- Byte list of the scheme pseudo-header name. -/
def hSCHEME : List Nat := [58, 115, 99, 104, 101, 109, 101]

/-- Byte list of the forbidden connection header name. -/
def hCONNECTION : List Nat := [99, 111, 110, 110, 101, 99, 116, 105, 111, 110]

/-- Byte list of the te header name. -/
def hTE : List Nat := [116, 101]

/-- Byte list of the only allowed te value (the word trailers). -/
def vTRAILERS : List Nat := [116, 114, 97, 105, 108, 101, 114, 115]

/-- Byte list of the CONNECT method name. -/
def mCONNECT : List Nat := [67, 79, 78, 78, 69, 67, 84]

/-- Byte list of the content-length header name. -/
def hCONTENT_LENGTH : List Nat :=
  [99, 111, 110, 116, 101, 110, 116, 45, 108, 101, 110, 103, 116, 104]

/-- The 256-entry CNO_HEADER_TRANSFORM table of core.c as a function:
RFC 7230 tchar bytes that are already lowercase map to themselves,
uppercase letters map to lowercase, everything else to 0. -/
def CNO_HEADER_TRANSFORM (c : Nat) : Nat :=
  if c = 33 ∨ (35 ≤ c ∧ c ≤ 39) ∨ c = 42 ∨ c = 43 ∨ c = 45 ∨ c = 46 ∨
      (48 ≤ c ∧ c ≤ 57) ∨ (94 ≤ c ∧ c ≤ 122) ∨ c = 124 ∨ c = 126 then c
  else if 65 ≤ c ∧ c ≤ 90 then c + 32
  else 0

/-- Whether a header is a pseudo-header, i.e. its name starts with the
colon byte (cno_buffer_startswith against a one-byte buffer). -/
def pseudoHeader (h : cno_header_t) : Bool :=
  match h.name with
  | 58 :: _ => true
  | _ => false

/-- Function cno_is_informational of core.c. -/
def cno_is_informational (code : Nat) : Bool :=
  100 ≤ code ∧ code < 200

/-- Accumulated message fields while scanning the pseudo-header block in
reverse, mirroring the locals of cno_frame_handle_message. -/
structure cno_pseudo_acc where
  code : Nat := 0
  method : Option (List Nat) := none
  path : Option (List Nat) := none
  has_scheme : Bool := false
  has_authority : Bool := false
deriving DecidableEq, Repr

/-- Reverse scan over the pseudo-header block of cno_frame_handle_message
(the argument list is the block already reversed, so the head here is the
last pseudo-header on the wire).  none models the paths that send
RST_STREAM(PROTOCOL_ERROR). -/
def cno_pseudo_loop (is_response : Bool) :
    List cno_header_t → cno_pseudo_acc → Option cno_pseudo_acc
  | [], acc => some acc
  | h :: rest, acc =>
    if is_response then
      if h.name = hSTATUS then
        let code := cno_parse_uint h.value
        if acc.code ≠ 0 ∨ code > 65535 then none
        else cno_pseudo_loop is_response rest { acc with code := code }
      else none
    else
      if h.name = hPATH then
        if acc.path ≠ none then none
        else cno_pseudo_loop is_response rest { acc with path := some h.value }
      else if h.name = hMETHOD then
        if acc.method ≠ none then none
        else cno_pseudo_loop is_response rest { acc with method := some h.value }
      else if h.name = hAUTHORITY then
        if acc.has_authority then none
        else cno_pseudo_loop is_response rest { acc with has_authority := true }
      else if h.name = hSCHEME then
        if acc.has_scheme then none
        else cno_pseudo_loop is_response rest { acc with has_scheme := true }
      else none

/-- Scan over the regular (non-pseudo) headers of
cno_frame_handle_message, threading stream->remaining_payload (which the
caller reset to (uint64_t)-1).  none models the RST_STREAM paths. -/
def cno_regular_loop : List cno_header_t → Nat → Option Nat
  | [], rem => some rem
  | h :: t, rem =>
    if h.name.any (fun b => CNO_HEADER_TRANSFORM b != b) then none
    else if h.name = hCONNECTION then none
    else if h.name = hTE ∧ h.value ≠ vTRAILERS then none
    else if h.name = hCONTENT_LENGTH then
      let v := cno_parse_uint h.value
      if v = UINT64_MAX then none else cno_regular_loop t v
    else cno_regular_loop t rem

/-- Result of cno_frame_handle_end_stream: the RST_STREAM code if the
declared length was not consumed, whether on_message_tail fired, the new
read half-state and whether the stream object was destroyed. -/
structure cno_end_stream_result where
  rst : Option Nat
  tail : Bool
  rstate : Nat
  ended : Bool
deriving DecidableEq, Repr

/-- Function cno_frame_handle_end_stream of core.c (the on_message_tail
callback is modelled as succeeding). -/
def cno_frame_handle_end_stream (rhr : Bool) (remaining : Nat) (wstate : Nat) :
    cno_end_stream_result :=
  if ¬rhr ∧ remaining ≠ 0 ∧ remaining ≠ UINT64_MAX then
    ⟨some CNO_RST_PROTOCOL_ERROR, false, CNO_STREAM_CLOSED, true⟩
  else
    ⟨none, true, CNO_STREAM_CLOSED, wstate = CNO_STREAM_CLOSED⟩

/-- Observable outcome of cno_frame_handle_message: the RST_STREAM code if
the message was rejected (always PROTOCOL_ERROR in the source), which
message callbacks fired, the extracted status code / method / path, the
declared content length stored into the stream, the resulting read
half-state and whether the stream was destroyed.  The in-place shuffling
of consumed pseudo-headers only affects the header list handed to the
callbacks and is not otherwise observable, so it is not tracked. -/
structure cno_hm_result where
  rst : Option Nat := none
  head : Bool := false
  tail : Bool := false
  push : Bool := false
  code : Nat := 0
  method : Option (List Nat) := none
  path : Option (List Nat) := none
  remaining : Nat := UINT64_MAX
  rstate : Nat := CNO_STREAM_HEADERS
  ended : Bool := false
deriving DecidableEq, Repr

/-- Rejection result of cno_frame_handle_message: every rejecting return
in the source is cno_frame_write_rst_stream(conn, stream,
CNO_RST_PROTOCOL_ERROR), which destroys the stream and returns OK. -/
def hmReject : cno_hm_result :=
  { rst := some CNO_RST_PROTOCOL_ERROR, rstate := CNO_STREAM_CLOSED, ended := true }

/-- Function cno_frame_handle_message of core.c.  `client` is
conn->client; `ftype` and `fflags` are the frame's type and flags; `s` is
the owning stream.  Callbacks are modelled as succeeding. -/
def cno_frame_handle_message (client : Bool) (ftype fflags : Nat)
    (s : cno_stream_t) (headers : List cno_header_t) : cno_hm_result :=
  let is_response := client && (ftype != CNO_FRAME_PUSH_PROMISE)
  let pb := headers.takeWhile pseudoHeader
  let rest := headers.dropWhile pseudoHeader
  if pb ≠ [] ∧ s.r_state ≠ CNO_STREAM_HEADERS then hmReject
  else
    match cno_pseudo_loop is_response pb.reverse {} with
    | none => hmReject
    | some acc =>
      match cno_regular_loop rest UINT64_MAX with
      | none => hmReject
      | some rem =>
        if s.r_state ≠ CNO_STREAM_HEADERS then
          let e := cno_frame_handle_end_stream s.reading_head_response rem s.w_state
          { rst := e.rst, tail := e.tail, code := acc.code, method := acc.method,
            path := acc.path, remaining := rem, rstate := e.rstate, ended := e.ended }
        else if (if is_response then acc.code = 0
            else ¬(acc.method = some mCONNECT) ∧
              (acc.path = none ∨ acc.path = some [] ∨ acc.method = none ∨
                acc.method = some [] ∨ ¬acc.has_scheme)) then
          hmReject
        else if ftype = CNO_FRAME_PUSH_PROMISE then
          { push := true, code := acc.code, method := acc.method, path := acc.path,
            remaining := rem, rstate := s.r_state }
        else if cno_is_informational acc.code ∧ rem ≠ UINT64_MAX then
          hmReject
        else
          let rstate1 :=
            if cno_is_informational acc.code then s.r_state else CNO_STREAM_DATA
          if fflags &&& CNO_FLAG_END_STREAM ≠ 0 then
            let e := cno_frame_handle_end_stream s.reading_head_response rem s.w_state
            { rst := e.rst, head := true, tail := e.tail, code := acc.code,
              method := acc.method, path := acc.path, remaining := rem,
              rstate := e.rstate, ended := e.ended }
          else
            { head := true, code := acc.code, method := acc.method, path := acc.path,
              remaining := rem, rstate := rstate1 }

/-- The status pseudo-headers of a header list: the members of the leading
pseudo-header block whose name is the status pseudo-header. -/
def statusHeaders (headers : List cno_header_t) : List cno_header_t :=
  (headers.takeWhile pseudoHeader).filter (fun h => h.name == hSTATUS)

/-- Concatenation of the payloads of a list of emitted frames, for stating
the splitter round-trip property. -/
def payloadConcat (frames : List cno_frame_t) : List Nat :=
  frames.foldr (fun f acc => f.payload ++ acc) []

/-- A trivial state-machine step (used to instantiate the abstracted
handler table in closed statements). -/
def cno_step_noop (conn : cno_connection_t) : cno_step_out :=
  ⟨.ok none, conn, [], []⟩

/-- A freshly initialized server connection: state CLOSED, as after
cno_connection_init. -/
def connClosed : cno_connection_t :=
  { client := false }

/-- A client-side HTTP/2 connection in the frame-dispatch state with one
open stream (id 3), as after the client opened a request stream. -/
def s3cex : cno_stream_t :=
  { id := 3, r_state := CNO_STREAM_DATA, w_state := CNO_STREAM_DATA }

/-- Connection owning stream 3, used for the WINDOW_UPDATE scenarios. -/
def conn3cex : cno_connection_t :=
  { client := true, mode := CNO_HTTP2, state := CNO_STATE_H2_FRAME,
    last_stream_local := 3, stream_count_local := 1, streams := [s3cex] }

/-- A server-side HTTP/2 connection in the frame-dispatch state. -/
def conn4cex : cno_connection_t :=
  { client := false, mode := CNO_HTTP2, state := CNO_STATE_H2_FRAME }

/-- A server-side HTTP/2 connection used for the shutdown scenario. -/
def conn8cex : cno_connection_t :=
  { client := false, mode := CNO_HTTP2, state := CNO_STATE_H2_FRAME }

/-- The decimal digit string 20496382304121724019, whose value exceeds
2^64: a parse input on which the wrap-around check of cno_parse_uint does
not fire. -/
def c10digits : List Nat :=
  [50, 48, 52, 57, 54, 51, 56, 50, 51, 48, 52, 49, 50, 49, 55, 50, 52, 48, 49, 57]

/-! Helper lemmas about bit masks and serialization. -/

theorem and_mask_clear (x m b : Nat) (h : m &&& b = 0) : (x &&& m) &&& b = 0 := by
  rw [Nat.and_assoc, h, Nat.and_zero]

theorem and_mask_pres (x m b : Nat) (h : x &&& b = 0) : (x &&& m) &&& b = 0 := by
  rw [Nat.and_assoc, Nat.and_comm m b, ← Nat.and_assoc, h, Nat.zero_and]

theorem or_and_self_ne_zero (x b k : Nat) (hbk : Nat.testBit b k = true) :
    (x ||| b) &&& b ≠ 0 := by
  intro h0
  have h := congrArg (fun n => Nat.testBit n k) h0
  simp only [Nat.testBit_and, Nat.testBit_or, hbk, Nat.zero_testBit,
    Bool.or_true, Bool.true_and] at h
  exact absurd h (by decide)

theorem and_single_bit (x b k : Nat) (hb : b = 2 ^ k) (h : x &&& b ≠ 0) :
    x &&& b = b := by
  subst hb
  rcases Nat.ne_zero_implies_bit_true h with ⟨i, hi⟩
  rw [Nat.testBit_and, Nat.testBit_two_pow] at hi
  rcases (Bool.and_eq_true _ _).mp hi with ⟨hx, hk⟩
  have hki : k = i := of_decide_eq_true hk
  subst hki
  apply Nat.eq_of_testBit_eq
  intro j
  simp only [Nat.testBit_and, Nat.testBit_two_pow]
  by_cases hj : k = j
  · subst hj
    simp [hx]
  · simp [hj]

theorem read4_i32 (n : Nat) (h : n < 4294967296) : read4 (i32 n) = n := by
  show n / 16777216 % 256 * 16777216 + n / 65536 % 256 * 65536 +
    n / 256 % 256 * 256 + n % 256 = n
  omega

/-! Claim C1: the frame splitter. -/

theorem frame_write_loop_concat (limit : Nat) (hlim : 0 < limit) :
    ∀ fuel tp fl c sid payload, payload.length < fuel →
      payloadConcat (cno_frame_write_loop fuel limit tp fl c sid payload) = payload := by
  intro fuel
  induction fuel with
  | zero => intro tp fl c sid payload hf; omega
  | succ n ih =>
    intro tp fl c sid payload hf
    unfold cno_frame_write_loop
    split
    · simp [payloadConcat]
    · next hgt =>
      simp only [payloadConcat, List.foldr] at *
      rw [ih _ _ _ _ _ (by simp [List.length_drop]; omega)]
      exact List.take_append_drop limit payload

theorem frame_write_loop_data_type (limit : Nat) :
    ∀ fuel fl c sid payload,
      ∀ fr ∈ cno_frame_write_loop fuel limit CNO_FRAME_DATA fl c sid payload,
        fr.ftype = CNO_FRAME_DATA := by
  intro fuel
  induction fuel with
  | zero => intro fl c sid payload fr hfr; simp [cno_frame_write_loop] at hfr
  | succ n ih =>
    intro fl c sid payload fr hfr
    unfold cno_frame_write_loop at hfr
    split at hfr
    · simp at hfr; subst hfr; rfl
    · rcases List.mem_cons.mp hfr with rfl | hmem
      · rfl
      · simp only [if_pos rfl] at hmem
        exact ih _ _ _ _ fr hmem

theorem frame_write_loop_carry_last (limit b k : Nat) (hlim : 0 < limit)
    (hbk : Nat.testBit b k = true) :
    ∀ fuel tp fl sid payload, payload.length < fuel → fl &&& b = 0 →
      ∃ init lastf,
        cno_frame_write_loop fuel limit tp fl b sid payload = init ++ [lastf] ∧
        (∀ fr ∈ init, fr.flags &&& b = 0) ∧ lastf.flags &&& b ≠ 0 := by
  intro fuel
  induction fuel with
  | zero => intro tp fl sid payload hf; omega
  | succ n ih =>
    intro tp fl sid payload hf hfl
    unfold cno_frame_write_loop
    split
    · exact ⟨[], ⟨tp, fl ||| b, sid, payload⟩, by simp, by simp,
        or_and_self_ne_zero fl b k hbk⟩
    · next hgt =>
      rcases ih (if tp = CNO_FRAME_DATA then tp else CNO_FRAME_CONTINUATION)
          (fl &&& (255 ^^^ (CNO_FLAG_PRIORITY ||| CNO_FLAG_END_STREAM))) sid
          (payload.drop limit) (by simp [List.length_drop]; omega)
          (and_mask_pres fl _ b hfl) with ⟨init, lastf, heq, hinit, hlast⟩
      exact ⟨⟨tp, fl, sid, payload.take limit⟩ :: init, lastf, by rw [heq]; rfl,
        by intro fr hfr
           rcases List.mem_cons.mp hfr with rfl | hmem
           · exact hfl
           · exact hinit fr hmem,
        hlast⟩

theorem frame_write_loop_flags_zero (limit : Nat) :
    ∀ fuel tp sid payload,
      ∀ fr ∈ cno_frame_write_loop fuel limit tp 0 0 sid payload, fr.flags = 0 := by
  intro fuel
  induction fuel with
  | zero => intro tp sid payload fr hfr; simp [cno_frame_write_loop] at hfr
  | succ n ih =>
    intro tp sid payload fr hfr
    unfold cno_frame_write_loop at hfr
    split at hfr
    · simp at hfr; subst hfr; rfl
    · rcases List.mem_cons.mp hfr with rfl | hmem
      · rfl
      · have h0 : (0 : Nat) &&& (255 ^^^ (CNO_FLAG_PRIORITY ||| CNO_FLAG_END_STREAM)) = 0 :=
          Nat.zero_and _
        rw [h0] at hmem
        exact ih _ _ _ fr hmem

/-- C1 (amended): for a splittable unpadded frame, cno_frame_write
succeeds, the concatenation of the emitted payloads is the original
payload, END_HEADERS — if set on the original HEADERS/PUSH_PROMISE —
appears exactly once, on the last emitted frame, and when splitting DATA
every emitted frame is DATA and END_STREAM, if originally set, appears
exactly once, on the last one. -/
theorem c1_frame_write_splitter (limit : Nat) (f : cno_frame_t)
    (hlim : 0 < limit)
    (hpad : f.flags &&& CNO_FLAG_PADDED = 0)
    (htype : f.ftype = CNO_FRAME_HEADERS ∨ f.ftype = CNO_FRAME_PUSH_PROMISE ∨
      f.ftype = CNO_FRAME_DATA) :
    ∃ frames, cno_frame_write limit f = .ok frames ∧
      payloadConcat frames = f.payload ∧
      ((f.ftype = CNO_FRAME_HEADERS ∨ f.ftype = CNO_FRAME_PUSH_PROMISE) →
        f.flags &&& CNO_FLAG_END_HEADERS ≠ 0 →
        ∃ init lastf, frames = init ++ [lastf] ∧
          (∀ fr ∈ init, fr.flags &&& CNO_FLAG_END_HEADERS = 0) ∧
          lastf.flags &&& CNO_FLAG_END_HEADERS ≠ 0) ∧
      (f.ftype = CNO_FRAME_DATA →
        (∀ fr ∈ frames, fr.ftype = CNO_FRAME_DATA) ∧
        (f.flags &&& CNO_FLAG_END_STREAM ≠ 0 →
          ∃ init lastf, frames = init ++ [lastf] ∧
            (∀ fr ∈ init, fr.flags &&& CNO_FLAG_END_STREAM = 0) ∧
            lastf.flags &&& CNO_FLAG_END_STREAM ≠ 0)) := by
  by_cases hle : f.payload.length ≤ limit
  · refine ⟨[f], ?_, ?_, ?_, ?_⟩
    · unfold cno_frame_write
      rw [if_pos hle]
    · simp [payloadConcat]
    · intro hH hEH
      exact ⟨[], f, rfl, by simp, hEH⟩
    · intro hdata
      refine ⟨?_, fun hES => ⟨[], f, rfl, by simp, hES⟩⟩
      intro fr hfr
      simp at hfr
      rw [hfr]
      exact hdata
  · have hpad2 : ¬(f.flags &&& CNO_FLAG_PADDED ≠ 0) := by simp [hpad]
    have hsplit : ¬(f.ftype ≠ CNO_FRAME_HEADERS ∧ f.ftype ≠ CNO_FRAME_PUSH_PROMISE ∧
        f.ftype ≠ CNO_FRAME_DATA) := by
      rcases htype with h | h | h <;> simp [h]
    refine ⟨cno_frame_write_loop (f.payload.length + 1) limit f.ftype
        (f.flags &&& (255 ^^^ (f.flags &&&
          (if f.ftype = CNO_FRAME_DATA then CNO_FLAG_END_STREAM else CNO_FLAG_END_HEADERS))))
        (f.flags &&&
          (if f.ftype = CNO_FRAME_DATA then CNO_FLAG_END_STREAM else CNO_FLAG_END_HEADERS))
        f.stream f.payload, ?_, ?_, ?_, ?_⟩
    · unfold cno_frame_write
      rw [if_neg hle, if_neg hsplit, if_neg hpad2]
    · exact frame_write_loop_concat limit hlim (f.payload.length + 1) f.ftype
        (f.flags &&& (255 ^^^ (f.flags &&&
          (if f.ftype = CNO_FRAME_DATA then CNO_FLAG_END_STREAM else CNO_FLAG_END_HEADERS))))
        (f.flags &&&
          (if f.ftype = CNO_FRAME_DATA then CNO_FLAG_END_STREAM else CNO_FLAG_END_HEADERS))
        f.stream f.payload (by omega)
    · intro hH hEH
      have hne : f.ftype ≠ CNO_FRAME_DATA := by
        rcases hH with h | h <;> rw [h] <;> decide
      rw [if_neg hne]
      have hc : f.flags &&& CNO_FLAG_END_HEADERS = CNO_FLAG_END_HEADERS :=
        and_single_bit _ _ 2 (by decide) hEH
      rw [hc]
      exact frame_write_loop_carry_last limit CNO_FLAG_END_HEADERS 2 hlim (by decide)
        (f.payload.length + 1) f.ftype (f.flags &&& (255 ^^^ CNO_FLAG_END_HEADERS))
        f.stream f.payload (by omega) (and_mask_clear _ _ _ (by decide))
    · intro hdata
      rw [if_pos hdata, hdata]
      constructor
      · exact frame_write_loop_data_type limit _ _ _ _ _
      · intro hES
        have hc : f.flags &&& CNO_FLAG_END_STREAM = CNO_FLAG_END_STREAM :=
          and_single_bit _ _ 0 (by decide) hES
        rw [hc]
        exact frame_write_loop_carry_last limit CNO_FLAG_END_STREAM 0 hlim (by decide)
          (f.payload.length + 1) CNO_FRAME_DATA
          (f.flags &&& (255 ^^^ CNO_FLAG_END_STREAM)) f.stream f.payload
          (by omega) (and_mask_clear _ _ _ (by decide))

/-- Witness for the amended C1 theorem at a concrete oversized HEADERS
frame with END_HEADERS set. -/
theorem c1_frame_write_splitter_witness :
    0 < 16384 ∧
    (∃ frames,
      cno_frame_write 16384
        ⟨CNO_FRAME_HEADERS, CNO_FLAG_END_HEADERS, 1, List.replicate 20000 7⟩ =
          .ok frames ∧
      payloadConcat frames = List.replicate 20000 7 ∧
      ((CNO_FRAME_HEADERS = CNO_FRAME_HEADERS ∨ CNO_FRAME_HEADERS = CNO_FRAME_PUSH_PROMISE) →
        CNO_FLAG_END_HEADERS &&& CNO_FLAG_END_HEADERS ≠ 0 →
        ∃ init lastf, frames = init ++ [lastf] ∧
          (∀ fr ∈ init, fr.flags &&& CNO_FLAG_END_HEADERS = 0) ∧
          lastf.flags &&& CNO_FLAG_END_HEADERS ≠ 0) ∧
      (CNO_FRAME_HEADERS = CNO_FRAME_DATA →
        (∀ fr ∈ frames, fr.ftype = CNO_FRAME_DATA) ∧
        (CNO_FLAG_END_HEADERS &&& CNO_FLAG_END_STREAM ≠ 0 →
          ∃ init lastf, frames = init ++ [lastf] ∧
            (∀ fr ∈ init, fr.flags &&& CNO_FLAG_END_STREAM = 0) ∧
            lastf.flags &&& CNO_FLAG_END_STREAM ≠ 0))) :=
  ⟨by decide,
    c1_frame_write_splitter 16384
      ⟨CNO_FRAME_HEADERS, CNO_FLAG_END_HEADERS, 1, List.replicate 20000 7⟩
      (by decide) (by decide) (Or.inl rfl)⟩


theorem frame_write_loop_head_split (limit fuel tp fl c sid : Nat)
    (payload : List Nat) (h : limit < payload.length) (hf : 0 < fuel) :
    ∃ rest, cno_frame_write_loop fuel limit tp fl c sid payload =
      ⟨tp, fl, sid, payload.take limit⟩ :: rest := by
  cases fuel with
  | zero => omega
  | succ n =>
    unfold cno_frame_write_loop
    rw [if_neg (by omega)]
    exact ⟨_, rfl⟩

/-- Counterexample to C1 as stated: an oversized HEADERS frame without
END_HEADERS (such frames reach cno_frame_write through cno_write_frame) is
split into frames none of which carries END_HEADERS, so END_HEADERS does
not appear exactly once; the first emitted frame carries only
max_frame_size bytes of the 16385-byte payload, so a split did happen. -/
theorem c1_frame_write_splitter_counterexample :
    ((cno_frame_write 16384 ⟨CNO_FRAME_HEADERS, 0, 1, List.replicate 16385 0⟩).map
      (fun frames => frames.countP (fun fr => fr.flags &&& CNO_FLAG_END_HEADERS != 0))) =
      .ok 0 ∧
    ((cno_frame_write 16384 ⟨CNO_FRAME_HEADERS, 0, 1, List.replicate 16385 0⟩).map
      (fun frames => frames.head?.map (fun fr => fr.payload.length))) =
      .ok (some 16384) := by
  have hside : ¬((List.replicate 16385 (0 : Nat)).length ≤ 16384) := by
    rw [List.length_replicate]; omega
  have heq : cno_frame_write 16384 ⟨CNO_FRAME_HEADERS, 0, 1, List.replicate 16385 0⟩ =
      .ok (cno_frame_write_loop ((List.replicate 16385 0).length + 1) 16384
        CNO_FRAME_HEADERS 0 0 1 (List.replicate 16385 0)) := by
    unfold cno_frame_write
    rw [if_neg hside, if_neg (by decide), if_neg (by decide)]
    rfl
  constructor
  · rw [heq]
    simp only [Except.map]
    refine congrArg Except.ok ?_
    rw [List.countP_eq_zero]
    intro fr hfr
    have hz := frame_write_loop_flags_zero 16384 ((List.replicate 16385 0).length + 1)
      CNO_FRAME_HEADERS 1 (List.replicate 16385 0) fr hfr
    simp [hz]
  · rw [heq]
    rcases frame_write_loop_head_split 16384 ((List.replicate 16385 0).length + 1)
      CNO_FRAME_HEADERS 0 0 1 (List.replicate 16385 0)
      (by rw [List.length_replicate]; omega) (by omega) with ⟨rest, hr⟩
    rw [hr]
    simp only [Except.map, List.head?_cons, Option.map_some]
    refine congrArg Except.ok (congrArg some ?_)
    simp only [List.length_take, List.length_replicate]
    omega

/-! Claim C2: the chunk-size line parser. -/

/-- C2 (code bug): the chunk-size scan maps the hex digit with byte value
65 (the letter A, hexadecimal value 10) to 0 because the letter branches
lack the +10 offset, so the line A CR LF parses as chunk size 0 and
transitions to H1_TRAILERS instead of H1_CHUNK_BODY with remaining 10; a
line with a non-hex byte (103, the letter g) is not rejected either — it
wraps around to (size_t)-1 and enters H1_CHUNK_BODY. -/
theorem c2_h1_chunk_code_bug :
    cno_when_h1_chunk 16384 [65, 13, 10] = .next CNO_STATE_H1_TRAILERS 0 [] ∧
    hexValue [65] = some 10 ∧
    cno_when_h1_chunk 16384 [103, 13, 10] =
      .next CNO_STATE_H1_CHUNK_BODY UINT64_MAX [] ∧
    hexValue [103] = none := by
  decide

/-! Claim C3: WINDOW_UPDATE handling. -/

/-- Counterexample to C3 as stated: a WINDOW_UPDATE with increment 2^31 on
existing stream 3 is rejected by the bounds check (increment must be at
most 2^31 - 1) before any window arithmetic, so the engine sends
GOAWAY(PROTOCOL_ERROR) and the handler fails with PROTOCOL — there is no
RST_STREAM and consume does not return OK. -/
theorem c3_window_update_counterexample :
    (cno_frame_handle_window_update conn3cex (some s3cex)
      ⟨CNO_FRAME_WINDOW_UPDATE, 0, 3, [128, 0, 0, 0]⟩).ret = .error .PROTOCOL ∧
    (cno_frame_handle_window_update conn3cex (some s3cex)
      ⟨CNO_FRAME_WINDOW_UPDATE, 0, 3, [128, 0, 0, 0]⟩).frames =
      [⟨CNO_FRAME_GOAWAY, 0, 0, [0, 0, 0, 0, 0, 0, 0, 1]⟩] ∧
    read4 [128, 0, 0, 0] = 2147483648 := by
  decide

/-- C3 (amended): a WINDOW_UPDATE with an in-range increment (at most
2^31 - 1) on an existing stream whose send window would exceed 2^31 - 1
makes the engine emit RST_STREAM(FLOW_CONTROL_ERROR) for that stream and
return OK (no connection-level error). -/
theorem c3_window_update_amended (conn : cno_connection_t) (s : cno_stream_t)
    (fid inc : Nat) (h4 : 4 ≤ conn.settings_remote.max_frame_size)
    (hfid : fid ≠ 0) (hinc1 : 1 ≤ inc) (hinc2 : inc ≤ 2147483647)
    (hover : (2147483647 : Int) <
      s.window_send + inc + conn.settings_remote.initial_window_size) :
    (cno_frame_handle_window_update conn (some s)
      ⟨CNO_FRAME_WINDOW_UPDATE, 0, fid, i32 inc⟩).ret = .ok () ∧
    (cno_frame_handle_window_update conn (some s)
      ⟨CNO_FRAME_WINDOW_UPDATE, 0, fid, i32 inc⟩).frames =
      [⟨CNO_FRAME_RST_STREAM, 0, s.id, i32 CNO_RST_FLOW_CONTROL_ERROR⟩] := by
  have hr4 : read4 (i32 inc) = inc := read4_i32 inc (by omega)
  have hlen : (i32 inc).length = 4 := rfl
  have hb : ¬(inc = 0 ∨ inc > 2147483647) := by omega
  have hw : (i32 CNO_RST_FLOW_CONTROL_ERROR).length ≤
      conn.settings_remote.max_frame_size := by
    simpa using h4
  constructor <;>
    simp [cno_frame_handle_window_update, cno_frame_write_rst_stream,
      cno_frame_write_rst_stream_by_id, cno_frame_write, cno_stream_end_by_local,
      cno_stream_end, cno_stream_free, hr4, hlen, hfid, hover, hb, hw]

/-- Witness for the amended C3 theorem: increment 2^31 - 1 on stream 3
with the default initial window. -/
theorem c3_window_update_amended_witness :
    4 ≤ conn3cex.settings_remote.max_frame_size ∧
    ((cno_frame_handle_window_update conn3cex (some s3cex)
      ⟨CNO_FRAME_WINDOW_UPDATE, 0, 3, i32 2147483647⟩).ret = .ok () ∧
     (cno_frame_handle_window_update conn3cex (some s3cex)
      ⟨CNO_FRAME_WINDOW_UPDATE, 0, 3, i32 2147483647⟩).frames =
      [⟨CNO_FRAME_RST_STREAM, 0, s3cex.id, i32 CNO_RST_FLOW_CONTROL_ERROR⟩]) :=
  ⟨by decide,
    c3_window_update_amended conn3cex s3cex 3 2147483647 (by decide) (by decide)
      (by decide) (by decide) (by decide)⟩

/-! Claim C4: SETTINGS handling. -/

theorem cno_frame_write_goaway_spec (conn : cno_connection_t) (code : Nat)
    (h : 8 ≤ conn.settings_remote.max_frame_size) :
    cno_frame_write_goaway conn code =
      ⟨.ok (),
        if conn.goaway_sent = 0 then
          { conn with goaway_sent := conn.last_stream_remote } else conn,
        [⟨CNO_FRAME_GOAWAY, 0, 0,
          i32 (if conn.goaway_sent = 0 then conn.last_stream_remote
            else conn.goaway_sent) ++ i32 code⟩], []⟩ := by
  unfold cno_frame_write_goaway cno_frame_write
  by_cases hg : conn.goaway_sent = 0 <;>
    simp [hg, i32, h]

theorem cno_frame_write_error_spec (conn : cno_connection_t) (code : Nat)
    (h : 8 ≤ conn.settings_remote.max_frame_size) :
    cno_frame_write_error conn code =
      ⟨.error .PROTOCOL,
        if conn.goaway_sent = 0 then
          { conn with goaway_sent := conn.last_stream_remote } else conn,
        [⟨CNO_FRAME_GOAWAY, 0, 0,
          i32 (if conn.goaway_sent = 0 then conn.last_stream_remote
            else conn.goaway_sent) ++ i32 code⟩], []⟩ := by
  unfold cno_frame_write_error
  rw [cno_frame_write_goaway_spec conn code h]
  rfl

/-- Counterexample to C4 as stated: a non-ACK SETTINGS frame on stream 0
whose single entry sets enable_push to 2 (payload size 6, a multiple of 6)
is answered with GOAWAY(PROTOCOL_ERROR) and a PROTOCOL failure — no
SETTINGS ACK is written and on_settings does not fire. -/
theorem c4_settings_counterexample :
    (cno_frame_handle_settings conn4cex
      ⟨CNO_FRAME_SETTINGS, 0, 0, [0, 2, 0, 0, 0, 2]⟩).ret = .error .PROTOCOL ∧
    (cno_frame_handle_settings conn4cex
      ⟨CNO_FRAME_SETTINGS, 0, 0, [0, 2, 0, 0, 0, 2]⟩).frames =
      [⟨CNO_FRAME_GOAWAY, 0, 0, [0, 0, 0, 0, 0, 0, 0, 1]⟩] ∧
    (cno_frame_handle_settings conn4cex
      ⟨CNO_FRAME_SETTINGS, 0, 0, [0, 2, 0, 0, 0, 2]⟩).events = [] ∧
    (6 : Nat) % 6 = 0 := by
  decide

/-- C4 (amended): for every non-ACK SETTINGS frame on stream 0 — writing C
for REMOTE after applying the decoded 6-octet entries (unknown keys
ignored, known keys updating their field) — a payload size not a multiple
of 6 yields GOAWAY(FRAME_SIZE_ERROR) and a PROTOCOL failure; with a
multiple-of-6 payload, if C satisfies the invariants (enable_push at most
1, initial_window_size at most 2^31-1, max_frame_size within
[2^14, 2^24-1]) the engine stores C, sets the encoder limit to
min(C.header_table_size, LOCAL.header_table_size), writes a SETTINGS ACK
and fires on_settings; otherwise GOAWAY with the matching code is sent
(PROTOCOL_ERROR for enable_push, FLOW_CONTROL_ERROR for
initial_window_size, PROTOCOL_ERROR for max_frame_size) and the handler
fails with PROTOCOL.  Each GOAWAY branch assumes the frame-write limit in
effect — the just-updated C.max_frame_size on the invariant branches —
admits the 8-byte GOAWAY payload, as in every reachable state. -/
theorem c4_settings_amended (conn : cno_connection_t) (frame : cno_frame_t)
    (hs : frame.stream = 0) (hack : frame.flags &&& CNO_FLAG_ACK = 0) :
    (frame.payload.length % 6 ≠ 0 → 8 ≤ conn.settings_remote.max_frame_size →
      (cno_frame_handle_settings conn frame).ret = .error .PROTOCOL ∧
      (cno_frame_handle_settings conn frame).frames =
        [⟨CNO_FRAME_GOAWAY, 0, 0,
          i32 (if conn.goaway_sent = 0 then conn.last_stream_remote
            else conn.goaway_sent) ++ i32 CNO_RST_FRAME_SIZE_ERROR⟩] ∧
      (cno_frame_handle_settings conn frame).events = []) ∧
    (frame.payload.length % 6 = 0 →
      (cno_settings_apply conn.settings_remote
        (cno_settings_entries frame.payload)).enable_push ≤ 1 →
      (cno_settings_apply conn.settings_remote
        (cno_settings_entries frame.payload)).initial_window_size ≤ 2147483647 →
      16384 ≤ (cno_settings_apply conn.settings_remote
        (cno_settings_entries frame.payload)).max_frame_size →
      (cno_settings_apply conn.settings_remote
        (cno_settings_entries frame.payload)).max_frame_size ≤ 16777215 →
      (cno_frame_handle_settings conn frame).ret = .ok () ∧
      (cno_frame_handle_settings conn frame).conn.settings_remote =
        cno_settings_apply conn.settings_remote (cno_settings_entries frame.payload) ∧
      (cno_frame_handle_settings conn frame).conn.encoder_limit =
        min (cno_settings_apply conn.settings_remote
            (cno_settings_entries frame.payload)).header_table_size
          conn.settings_local.header_table_size ∧
      (cno_frame_handle_settings conn frame).frames =
        [⟨CNO_FRAME_SETTINGS, CNO_FLAG_ACK, 0, []⟩] ∧
      cno_event.on_settings ∈ (cno_frame_handle_settings conn frame).events) ∧
    (frame.payload.length % 6 = 0 →
      (cno_settings_apply conn.settings_remote
        (cno_settings_entries frame.payload)).enable_push > 1 →
      8 ≤ (cno_settings_apply conn.settings_remote
        (cno_settings_entries frame.payload)).max_frame_size →
      (cno_frame_handle_settings conn frame).ret = .error .PROTOCOL ∧
      (cno_frame_handle_settings conn frame).frames =
        [⟨CNO_FRAME_GOAWAY, 0, 0,
          i32 (if conn.goaway_sent = 0 then conn.last_stream_remote
            else conn.goaway_sent) ++ i32 CNO_RST_PROTOCOL_ERROR⟩] ∧
      (cno_frame_handle_settings conn frame).events = []) ∧
    (frame.payload.length % 6 = 0 →
      (cno_settings_apply conn.settings_remote
        (cno_settings_entries frame.payload)).enable_push ≤ 1 →
      (cno_settings_apply conn.settings_remote
        (cno_settings_entries frame.payload)).initial_window_size > 2147483647 →
      8 ≤ (cno_settings_apply conn.settings_remote
        (cno_settings_entries frame.payload)).max_frame_size →
      (cno_frame_handle_settings conn frame).ret = .error .PROTOCOL ∧
      (cno_frame_handle_settings conn frame).frames =
        [⟨CNO_FRAME_GOAWAY, 0, 0,
          i32 (if conn.goaway_sent = 0 then conn.last_stream_remote
            else conn.goaway_sent) ++ i32 CNO_RST_FLOW_CONTROL_ERROR⟩] ∧
      (cno_frame_handle_settings conn frame).events = []) ∧
    (frame.payload.length % 6 = 0 →
      (cno_settings_apply conn.settings_remote
        (cno_settings_entries frame.payload)).enable_push ≤ 1 →
      (cno_settings_apply conn.settings_remote
        (cno_settings_entries frame.payload)).initial_window_size ≤ 2147483647 →
      ((cno_settings_apply conn.settings_remote
          (cno_settings_entries frame.payload)).max_frame_size < 16384 ∨
        (cno_settings_apply conn.settings_remote
          (cno_settings_entries frame.payload)).max_frame_size > 16777215) →
      8 ≤ (cno_settings_apply conn.settings_remote
        (cno_settings_entries frame.payload)).max_frame_size →
      (cno_frame_handle_settings conn frame).ret = .error .PROTOCOL ∧
      (cno_frame_handle_settings conn frame).frames =
        [⟨CNO_FRAME_GOAWAY, 0, 0,
          i32 (if conn.goaway_sent = 0 then conn.last_stream_remote
            else conn.goaway_sent) ++ i32 CNO_RST_PROTOCOL_ERROR⟩] ∧
      (cno_frame_handle_settings conn frame).events = []) := by
  refine ⟨?_, ?_, ?_, ?_, ?_⟩
  · intro hne h8
    unfold cno_frame_handle_settings
    rw [if_neg (by simp [hs]), if_neg (by simp [hack]), if_pos hne]
    rw [cno_frame_write_error_spec conn CNO_RST_FRAME_SIZE_ERROR h8]
    exact ⟨rfl, rfl, rfl⟩
  · intro hlen hpush hwin hmfs1 hmfs2
    set C := cno_settings_apply conn.settings_remote
      (cno_settings_entries frame.payload) with hC
    have hackw : cno_frame_write C.max_frame_size
        ⟨CNO_FRAME_SETTINGS, CNO_FLAG_ACK, 0, []⟩ =
        .ok [⟨CNO_FRAME_SETTINGS, CNO_FLAG_ACK, 0, []⟩] := by
      unfold cno_frame_write
      rw [if_pos (by simp)]
    unfold cno_frame_handle_settings
    rw [if_neg (by simp [hs]), if_neg (by simp [hack]), if_neg (by simp [hlen])]
    simp only [← hC]
    rw [if_neg (by omega), if_neg (by omega), if_neg (by omega), hackw]
    refine ⟨rfl, rfl, ?_, rfl, by simp⟩
    show (if C.header_table_size > conn.settings_local.header_table_size
      then conn.settings_local.header_table_size else C.header_table_size) = _
    split <;> omega
  · intro hlen hpush h8C
    set C := cno_settings_apply conn.settings_remote
      (cno_settings_entries frame.payload) with hC
    unfold cno_frame_handle_settings
    rw [if_neg (by simp [hs]), if_neg (by simp [hack]), if_neg (by simp [hlen])]
    simp only [← hC]
    rw [if_pos hpush]
    rw [cno_frame_write_error_spec { conn with settings_remote := C }
      CNO_RST_PROTOCOL_ERROR (by simpa using h8C)]
    exact ⟨rfl, rfl, rfl⟩
  · intro hlen hpush hwin h8C
    set C := cno_settings_apply conn.settings_remote
      (cno_settings_entries frame.payload) with hC
    unfold cno_frame_handle_settings
    rw [if_neg (by simp [hs]), if_neg (by simp [hack]), if_neg (by simp [hlen])]
    simp only [← hC]
    rw [if_neg (by omega), if_pos hwin]
    rw [cno_frame_write_error_spec { conn with settings_remote := C }
      CNO_RST_FLOW_CONTROL_ERROR (by simpa using h8C)]
    exact ⟨rfl, rfl, rfl⟩
  · intro hlen hpush hwin hor h8C
    set C := cno_settings_apply conn.settings_remote
      (cno_settings_entries frame.payload) with hC
    unfold cno_frame_handle_settings
    rw [if_neg (by simp [hs]), if_neg (by simp [hack]), if_neg (by simp [hlen])]
    simp only [← hC]
    rw [if_neg (by omega), if_neg (by omega), if_pos hor]
    rw [cno_frame_write_error_spec { conn with settings_remote := C }
      CNO_RST_PROTOCOL_ERROR (by simpa using h8C)]
    exact ⟨rfl, rfl, rfl⟩

/-- Witness for the amended C4 theorem: on a fresh server connection, a
SETTINGS frame shrinking the peer's header table to 2048 (below LOCAL's
4096) takes the ACK path; a 5-byte payload draws GOAWAY(FRAME_SIZE_ERROR);
enable_push 3 draws GOAWAY(PROTOCOL_ERROR); initial_window_size 2^31 draws
GOAWAY(FLOW_CONTROL_ERROR); max_frame_size 2^32-1 draws
GOAWAY(PROTOCOL_ERROR) — each with the handler failing with PROTOCOL. -/
theorem c4_settings_amended_witness :
    (⟨CNO_FRAME_SETTINGS, 0, 0, [0, 1, 0, 0, 8, 0]⟩ : cno_frame_t).stream = 0 ∧
    (0 : Nat) &&& CNO_FLAG_ACK = 0 ∧
    ((cno_frame_handle_settings conn4cex
      ⟨CNO_FRAME_SETTINGS, 0, 0, [0, 1, 0, 0, 8, 0]⟩).ret = .ok () ∧
    (cno_frame_handle_settings conn4cex
      ⟨CNO_FRAME_SETTINGS, 0, 0, [0, 1, 0, 0, 8, 0]⟩).conn.settings_remote =
      cno_settings_apply conn4cex.settings_remote
        (cno_settings_entries [0, 1, 0, 0, 8, 0]) ∧
    (cno_frame_handle_settings conn4cex
      ⟨CNO_FRAME_SETTINGS, 0, 0, [0, 1, 0, 0, 8, 0]⟩).conn.encoder_limit =
      min (cno_settings_apply conn4cex.settings_remote
          (cno_settings_entries [0, 1, 0, 0, 8, 0])).header_table_size
        conn4cex.settings_local.header_table_size ∧
    (cno_frame_handle_settings conn4cex
      ⟨CNO_FRAME_SETTINGS, 0, 0, [0, 1, 0, 0, 8, 0]⟩).frames =
      [⟨CNO_FRAME_SETTINGS, CNO_FLAG_ACK, 0, []⟩] ∧
    cno_event.on_settings ∈ (cno_frame_handle_settings conn4cex
      ⟨CNO_FRAME_SETTINGS, 0, 0, [0, 1, 0, 0, 8, 0]⟩).events) ∧
    ((cno_frame_handle_settings conn4cex
      ⟨CNO_FRAME_SETTINGS, 0, 0, [0, 0, 0, 0, 0]⟩).ret = .error .PROTOCOL ∧
    (cno_frame_handle_settings conn4cex
      ⟨CNO_FRAME_SETTINGS, 0, 0, [0, 0, 0, 0, 0]⟩).frames =
      [⟨CNO_FRAME_GOAWAY, 0, 0, [0, 0, 0, 0, 0, 0, 0, 6]⟩] ∧
    (cno_frame_handle_settings conn4cex
      ⟨CNO_FRAME_SETTINGS, 0, 0, [0, 0, 0, 0, 0]⟩).events = []) ∧
    ((cno_frame_handle_settings conn4cex
      ⟨CNO_FRAME_SETTINGS, 0, 0, [0, 2, 0, 0, 0, 3]⟩).ret = .error .PROTOCOL ∧
    (cno_frame_handle_settings conn4cex
      ⟨CNO_FRAME_SETTINGS, 0, 0, [0, 2, 0, 0, 0, 3]⟩).frames =
      [⟨CNO_FRAME_GOAWAY, 0, 0, [0, 0, 0, 0, 0, 0, 0, 1]⟩] ∧
    (cno_frame_handle_settings conn4cex
      ⟨CNO_FRAME_SETTINGS, 0, 0, [0, 2, 0, 0, 0, 3]⟩).events = []) ∧
    ((cno_frame_handle_settings conn4cex
      ⟨CNO_FRAME_SETTINGS, 0, 0, [0, 4, 128, 0, 0, 0]⟩).ret = .error .PROTOCOL ∧
    (cno_frame_handle_settings conn4cex
      ⟨CNO_FRAME_SETTINGS, 0, 0, [0, 4, 128, 0, 0, 0]⟩).frames =
      [⟨CNO_FRAME_GOAWAY, 0, 0, [0, 0, 0, 0, 0, 0, 0, 3]⟩] ∧
    (cno_frame_handle_settings conn4cex
      ⟨CNO_FRAME_SETTINGS, 0, 0, [0, 4, 128, 0, 0, 0]⟩).events = []) ∧
    ((cno_frame_handle_settings conn4cex
      ⟨CNO_FRAME_SETTINGS, 0, 0, [0, 5, 255, 255, 255, 255]⟩).ret =
      .error .PROTOCOL ∧
    (cno_frame_handle_settings conn4cex
      ⟨CNO_FRAME_SETTINGS, 0, 0, [0, 5, 255, 255, 255, 255]⟩).frames =
      [⟨CNO_FRAME_GOAWAY, 0, 0, [0, 0, 0, 0, 0, 0, 0, 1]⟩] ∧
    (cno_frame_handle_settings conn4cex
      ⟨CNO_FRAME_SETTINGS, 0, 0, [0, 5, 255, 255, 255, 255]⟩).events = []) :=
  ⟨rfl, rfl,
    (c4_settings_amended conn4cex ⟨CNO_FRAME_SETTINGS, 0, 0, [0, 1, 0, 0, 8, 0]⟩
      rfl (by decide)).2.1 (by decide) (by decide) (by decide) (by decide)
      (by decide),
    (c4_settings_amended conn4cex ⟨CNO_FRAME_SETTINGS, 0, 0, [0, 0, 0, 0, 0]⟩
      rfl (by decide)).1 (by decide) (by decide),
    (c4_settings_amended conn4cex ⟨CNO_FRAME_SETTINGS, 0, 0, [0, 2, 0, 0, 0, 3]⟩
      rfl (by decide)).2.2.1 (by decide) (by decide) (by decide),
    (c4_settings_amended conn4cex ⟨CNO_FRAME_SETTINGS, 0, 0, [0, 4, 128, 0, 0, 0]⟩
      rfl (by decide)).2.2.2.1 (by decide) (by decide) (by decide) (by decide),
    (c4_settings_amended conn4cex
      ⟨CNO_FRAME_SETTINGS, 0, 0, [0, 5, 255, 255, 255, 255]⟩
      rfl (by decide)).2.2.2.2 (by decide) (by decide) (by decide) (by decide)
      (by decide)⟩

/-! Claim C5: the status pseudo-header rule of the message validator. -/

theorem pseudo_loop_resp_status (L : List cno_header_t) :
    ∀ acc0 acc, cno_pseudo_loop true L acc0 = some acc →
      (∀ h ∈ L, h.name = hSTATUS ∧ cno_parse_uint h.value ≤ 65535) ∧
      (L = [] → acc = acc0) ∧
      (L ≠ [] → acc0.code = 0 ∧
        (∀ h ∈ L.dropLast, cno_parse_uint h.value = 0) ∧
        (∃ hl, L.getLast? = some hl ∧ acc.code = cno_parse_uint hl.value)) := by
  induction L with
  | nil =>
    intro acc0 acc h
    simp [cno_pseudo_loop] at h
    subst h
    exact ⟨by simp, fun _ => rfl, by simp⟩
  | cons hd tl ih =>
    intro acc0 acc h
    unfold cno_pseudo_loop at h
    simp only [reduceIte] at h
    split at h
    · next hname =>
      split at h
      · simp at h
      · next hcond =>
        push_neg at hcond
        rcases ih _ _ h with ⟨hall, hnil, hne⟩
        refine ⟨?_, by simp, fun _ => ⟨hcond.1, ?_, ?_⟩⟩
        · intro x hx
          rcases List.mem_cons.mp hx with rfl | hxt
          · exact ⟨hname, hcond.2⟩
          · exact hall x hxt
        · cases tl with
          | nil => simp
          | cons b bs =>
            intro x hx
            rw [List.dropLast_cons₂] at hx
            rcases List.mem_cons.mp hx with rfl | hxt
            · have := (hne (by simp)).1
              simpa using this
            · exact (hne (by simp)).2.1 x hxt
        · cases tl with
          | nil =>
            refine ⟨hd, by simp, ?_⟩
            rw [hnil rfl]
          | cons b bs =>
            rcases (hne (by simp)).2.2 with ⟨hl, hgl, hacc⟩
            exact ⟨hl, by simpa using hgl, hacc⟩
    · simp at h

theorem hm_rst_protocol_only (client : Bool) (ftype fflags : Nat)
    (s : cno_stream_t) (headers : List cno_header_t) :
    (cno_frame_handle_message client ftype fflags s headers).rst = none ∨
    (cno_frame_handle_message client ftype fflags s headers).rst =
      some CNO_RST_PROTOCOL_ERROR := by
  unfold cno_frame_handle_message cno_frame_handle_end_stream hmReject
  dsimp only
  repeat' split <;> first | (left; rfl) | (right; rfl) | skip

/-- C5 (amended): a response HEADERS message (client side, initial
HEADERS) is accepted only if every pseudo-header is a status
pseudo-header, each status value parses as a decimal at most 65535, the
first status pseudo-header has a nonzero value — which is stored in
message.code — and every later status pseudo-header parses to 0; and every
violation is RST_STREAM(PROTOCOL_ERROR) on the stream, never a
connection-level error. -/
theorem c5_response_status_amended (fflags : Nat) (s : cno_stream_t)
    (headers : List cno_header_t) (hrs : s.r_state = CNO_STREAM_HEADERS) :
    ((cno_frame_handle_message true CNO_FRAME_HEADERS fflags s headers).rst = none →
      (∀ h ∈ headers.takeWhile pseudoHeader,
        h.name = hSTATUS ∧ cno_parse_uint h.value ≤ 65535) ∧
      (∃ h1 pbtl, headers.takeWhile pseudoHeader = h1 :: pbtl ∧
        cno_parse_uint h1.value =
          (cno_frame_handle_message true CNO_FRAME_HEADERS fflags s headers).code ∧
        cno_parse_uint h1.value ≠ 0 ∧
        (∀ h ∈ pbtl, cno_parse_uint h.value = 0))) ∧
    ((cno_frame_handle_message true CNO_FRAME_HEADERS fflags s headers).rst = none ∨
     (cno_frame_handle_message true CNO_FRAME_HEADERS fflags s headers).rst =
       some CNO_RST_PROTOCOL_ERROR) := by
  refine ⟨?_, hm_rst_protocol_only true CNO_FRAME_HEADERS fflags s headers⟩
  unfold cno_frame_handle_message
  dsimp only
  rw [if_neg (by simp [hrs])]
  have hbool : (true && (CNO_FRAME_HEADERS != CNO_FRAME_PUSH_PROMISE)) = true := by
    decide
  rw [hbool]
  cases hpl : cno_pseudo_loop true (headers.takeWhile pseudoHeader).reverse {} with
  | none =>
    simp only [hpl]
    intro hrst
    simp [hmReject] at hrst
  | some acc =>
    simp only [hpl]
    cases hrl : cno_regular_loop (headers.dropWhile pseudoHeader) UINT64_MAX with
    | none =>
      simp only [hrl]
      intro hrst
      simp [hmReject] at hrst
    | some rem =>
      simp only [hrl]
      rw [if_neg (by simp [hrs])]
      simp only [reduceIte]
      by_cases hc0 : acc.code = 0
      · rw [if_pos hc0]
        intro hrst
        simp [hmReject] at hrst
      · rw [if_neg hc0]
        rw [if_neg (show ¬(CNO_FRAME_HEADERS = CNO_FRAME_PUSH_PROMISE) by decide)]
        by_cases hinf : (cno_is_informational acc.code = true ∧ rem ≠ UINT64_MAX)
        · rw [if_pos hinf]
          intro hrst
          simp [hmReject] at hrst
        · rw [if_neg hinf]
          have hmain : (∀ h ∈ headers.takeWhile pseudoHeader,
              h.name = hSTATUS ∧ cno_parse_uint h.value ≤ 65535) ∧
              (∃ h1 pbtl, headers.takeWhile pseudoHeader = h1 :: pbtl ∧
                cno_parse_uint h1.value = acc.code ∧
                cno_parse_uint h1.value ≠ 0 ∧
                (∀ h ∈ pbtl, cno_parse_uint h.value = 0)) := by
            rcases pseudo_loop_resp_status _ _ _ hpl with ⟨hall, hnil, hne⟩
            have hpbne : headers.takeWhile pseudoHeader ≠ [] := by
              intro he
              apply hc0
              have h0 := hnil (by simp [he])
              rw [h0]
            cases hpbc : headers.takeWhile pseudoHeader with
            | nil => exact absurd hpbc hpbne
            | cons h1 t1 =>
              rw [hpbc] at hall hnil hne
              rcases hne (by simp) with ⟨-, hdrop, hl, hgl, hacc⟩
              rw [List.getLast?_reverse, List.head?_cons] at hgl
              have hlh : hl = h1 := by
                simp at hgl
                exact hgl.symm
              subst hlh
              rw [List.reverse_cons, List.dropLast_concat] at hdrop
              refine ⟨?_, hl, t1, rfl, hacc.symm, fun h0 => hc0 (hacc.trans h0), ?_⟩
              · intro x hx
                exact hall x (List.mem_reverse.mpr hx)
              · intro x hx
                exact hdrop x (List.mem_reverse.mpr hx)
          by_cases hes : fflags &&& CNO_FLAG_END_STREAM ≠ 0
          · rw [if_pos hes]
            dsimp only
            by_cases h3 : (¬s.reading_head_response = true ∧ rem ≠ 0 ∧ rem ≠ UINT64_MAX)
            · have he3 : (cno_frame_handle_end_stream s.reading_head_response rem
                  s.w_state).rst = some CNO_RST_PROTOCOL_ERROR := by
                unfold cno_frame_handle_end_stream
                rw [if_pos h3]
              rw [he3]
              intro hrst
              simp at hrst
            · have he3 : (cno_frame_handle_end_stream s.reading_head_response rem
                  s.w_state).rst = none := by
                unfold cno_frame_handle_end_stream
                rw [if_neg h3]
              rw [he3]
              intro _
              exact hmain
          · rw [if_neg hes]
            dsimp only
            intro _
            exact hmain

/-- Counterexample to C5 as stated: a response carrying two status
pseudo-headers — the first with value 200, a second whose value parses to
0 — is accepted (no RST_STREAM, on_message_head fires with code 200)
although it does not carry exactly one status pseudo-header. -/
theorem c5_response_status_counterexample :
    (cno_frame_handle_message true CNO_FRAME_HEADERS 0 { id := 1 }
      [⟨hSTATUS, [50, 48, 48]⟩, ⟨hSTATUS, [48]⟩]).rst = none ∧
    (cno_frame_handle_message true CNO_FRAME_HEADERS 0 { id := 1 }
      [⟨hSTATUS, [50, 48, 48]⟩, ⟨hSTATUS, [48]⟩]).head = true ∧
    (cno_frame_handle_message true CNO_FRAME_HEADERS 0 { id := 1 }
      [⟨hSTATUS, [50, 48, 48]⟩, ⟨hSTATUS, [48]⟩]).code = 200 ∧
    (statusHeaders [⟨hSTATUS, [50, 48, 48]⟩, ⟨hSTATUS, [48]⟩]).length = 2 := by
  decide

/-- Witness for the amended C5 theorem at a well-formed response with a
single status pseudo-header of value 200. -/
theorem c5_response_status_amended_witness :
    ({ id := 1 } : cno_stream_t).r_state = CNO_STREAM_HEADERS ∧
    (((cno_frame_handle_message true CNO_FRAME_HEADERS 0 { id := 1 }
        [⟨hSTATUS, [50, 48, 48]⟩]).rst = none →
      (∀ h ∈ ([⟨hSTATUS, [50, 48, 48]⟩] : List cno_header_t).takeWhile pseudoHeader,
        h.name = hSTATUS ∧ cno_parse_uint h.value ≤ 65535) ∧
      (∃ h1 pbtl,
        ([⟨hSTATUS, [50, 48, 48]⟩] : List cno_header_t).takeWhile pseudoHeader =
          h1 :: pbtl ∧
        cno_parse_uint h1.value =
          (cno_frame_handle_message true CNO_FRAME_HEADERS 0 { id := 1 }
            [⟨hSTATUS, [50, 48, 48]⟩]).code ∧
        cno_parse_uint h1.value ≠ 0 ∧
        (∀ h ∈ pbtl, cno_parse_uint h.value = 0))) ∧
     ((cno_frame_handle_message true CNO_FRAME_HEADERS 0 { id := 1 }
        [⟨hSTATUS, [50, 48, 48]⟩]).rst = none ∨
      (cno_frame_handle_message true CNO_FRAME_HEADERS 0 { id := 1 }
        [⟨hSTATUS, [50, 48, 48]⟩]).rst = some CNO_RST_PROTOCOL_ERROR)) :=
  ⟨rfl, c5_response_status_amended 0 { id := 1 } [⟨hSTATUS, [50, 48, 48]⟩] rfl⟩

/-! Claim C6: informational responses. -/

theorem takeWhile_false_nil {α} (p : α → Bool) (l : List α)
    (h : ∀ x ∈ l, p x = false) : l.takeWhile p = [] := by
  cases l with
  | nil => rfl
  | cons a t => simp [List.takeWhile_cons, h a (by simp)]

theorem dropWhile_false_self {α} (p : α → Bool) (l : List α)
    (h : ∀ x ∈ l, p x = false) : l.dropWhile p = l := by
  cases l with
  | nil => rfl
  | cons a t => simp [List.dropWhile_cons, h a (by simp)]

theorem regular_loop_result (l : List cno_header_t) :
    ∀ rem v, cno_regular_loop l rem = some v → v = rem ∨ v ≠ UINT64_MAX := by
  induction l with
  | nil =>
    intro rem v h
    simp [cno_regular_loop] at h
    exact Or.inl h.symm
  | cons hd t ih =>
    intro rem v h
    unfold cno_regular_loop at h
    split at h
    · simp at h
    · split at h
      · simp at h
      · split at h
        · simp at h
        · split at h
          · dsimp only at h
            split at h
            · simp at h
            · next hne =>
              rcases ih _ _ h with rfl | hv
              · exact Or.inr hne
              · exact Or.inr hv
          · exact ih _ _ h

theorem regular_loop_cl_ne (l : List cno_header_t) :
    ∀ rem v, (∃ h ∈ l, h.name = hCONTENT_LENGTH) →
      cno_regular_loop l rem = some v → v ≠ UINT64_MAX := by
  induction l with
  | nil =>
    intro rem v hex
    simp at hex
  | cons hd t ih =>
    intro rem v hex h
    unfold cno_regular_loop at h
    split at h
    · simp at h
    · split at h
      · simp at h
      · split at h
        · simp at h
        · split at h
          · dsimp only at h
            split at h
            · simp at h
            · next hne =>
              rcases regular_loop_result t _ _ h with rfl | hv
              · exact hne
              · exact hv
          · next hnotcl =>
            rcases hex with ⟨x, hx, hxcl⟩
            rcases List.mem_cons.mp hx with rfl | hxt
            · exact absurd hxcl hnotcl
            · exact ih _ _ ⟨x, hxt, hxcl⟩ h

/-- C6 (amended): an informational (1xx) response that declares a
content-length is rejected with RST_STREAM(PROTOCOL_ERROR) on the owning
stream before on_message_head fires.  (The END_STREAM half of the original
claim does not hold; see the counterexample.) -/
theorem c6_informational_content_length (fflags : Nat) (s : cno_stream_t)
    (sv : List Nat) (regular : List cno_header_t)
    (hrs : s.r_state = CNO_STREAM_HEADERS)
    (hinf1 : 100 ≤ cno_parse_uint sv) (hinf2 : cno_parse_uint sv < 200)
    (hreg : ∀ h ∈ regular, pseudoHeader h = false)
    (hcl : ∃ h ∈ regular, h.name = hCONTENT_LENGTH) :
    (cno_frame_handle_message true CNO_FRAME_HEADERS fflags s
      (⟨hSTATUS, sv⟩ :: regular)).rst = some CNO_RST_PROTOCOL_ERROR ∧
    (cno_frame_handle_message true CNO_FRAME_HEADERS fflags s
      (⟨hSTATUS, sv⟩ :: regular)).head = false := by
  have hpb : (⟨hSTATUS, sv⟩ :: regular).takeWhile pseudoHeader =
      [(⟨hSTATUS, sv⟩ : cno_header_t)] := by
    rw [List.takeWhile_cons_of_pos (by rfl)]
    rw [takeWhile_false_nil pseudoHeader regular hreg]
  have hrest : (⟨hSTATUS, sv⟩ :: regular).dropWhile pseudoHeader = regular := by
    rw [List.dropWhile_cons_of_pos (by rfl)]
    exact dropWhile_false_self pseudoHeader regular hreg
  have hplv : cno_pseudo_loop true ([(⟨hSTATUS, sv⟩ : cno_header_t)]).reverse {} =
      some { code := cno_parse_uint sv } := by
    show cno_pseudo_loop true [(⟨hSTATUS, sv⟩ : cno_header_t)] {} = _
    unfold cno_pseudo_loop
    simp only [reduceIte]
    rw [if_neg (by simp; omega)]
    unfold cno_pseudo_loop
    rfl
  unfold cno_frame_handle_message
  dsimp only
  rw [hpb, hrest]
  rw [if_neg (by simp [hrs])]
  have hbool : (true && (CNO_FRAME_HEADERS != CNO_FRAME_PUSH_PROMISE)) = true := by
    decide
  rw [hbool]
  simp only [hplv]
  cases hrl : cno_regular_loop regular UINT64_MAX with
  | none =>
    simp only [hrl]
    exact ⟨rfl, rfl⟩
  | some rem =>
    simp only [hrl]
    rw [if_neg (by simp [hrs])]
    simp only [reduceIte]
    dsimp only
    rw [if_neg (by omega)]
    rw [if_neg (show ¬(CNO_FRAME_HEADERS = CNO_FRAME_PUSH_PROMISE) by decide)]
    rw [if_pos ?info]
    case info =>
      refine ⟨?_, regular_loop_cl_ne regular UINT64_MAX rem hcl hrl⟩
      simp only [cno_is_informational, decide_eq_true_eq]
      exact ⟨hinf1, hinf2⟩
    exact ⟨rfl, rfl⟩

/-- Counterexample to C6 as stated: a 1xx response (status 100) carrying
END_STREAM and no content-length is not rejected — the message is
delivered (on_message_head fires) and the read half is simply closed
(on_message_tail fires). -/
theorem c6_informational_counterexample :
    (cno_frame_handle_message true CNO_FRAME_HEADERS CNO_FLAG_END_STREAM { id := 1 }
      [⟨hSTATUS, [49, 48, 48]⟩]).rst = none ∧
    (cno_frame_handle_message true CNO_FRAME_HEADERS CNO_FLAG_END_STREAM { id := 1 }
      [⟨hSTATUS, [49, 48, 48]⟩]).head = true ∧
    (cno_frame_handle_message true CNO_FRAME_HEADERS CNO_FLAG_END_STREAM { id := 1 }
      [⟨hSTATUS, [49, 48, 48]⟩]).tail = true ∧
    (cno_frame_handle_message true CNO_FRAME_HEADERS CNO_FLAG_END_STREAM { id := 1 }
      [⟨hSTATUS, [49, 48, 48]⟩]).code = 100 ∧
    cno_is_informational 100 = true := by
  decide

/-- Witness for the amended C6 theorem: status 100 with content-length 5. -/
theorem c6_informational_content_length_witness :
    100 ≤ cno_parse_uint [49, 48, 48] ∧
    ((cno_frame_handle_message true CNO_FRAME_HEADERS 0 { id := 1 }
      [⟨hSTATUS, [49, 48, 48]⟩, ⟨hCONTENT_LENGTH, [53]⟩]).rst =
        some CNO_RST_PROTOCOL_ERROR ∧
     (cno_frame_handle_message true CNO_FRAME_HEADERS 0 { id := 1 }
      [⟨hSTATUS, [49, 48, 48]⟩, ⟨hCONTENT_LENGTH, [53]⟩]).head = false) :=
  ⟨by decide,
    c6_informational_content_length 0 { id := 1 } [49, 48, 48]
      [⟨hCONTENT_LENGTH, [53]⟩] rfl (by decide) (by decide) (by decide)
      ⟨⟨hCONTENT_LENGTH, [53]⟩, by decide, rfl⟩⟩

/-! Claim C7: stream creation parity and monotonicity. -/

/-- C7: a stream created by cno_stream_new is LOCAL exactly when its id
has the caller's parity (clients own odd ids, servers even ids) and its id
strictly exceeds the previous last_stream for that side; wrong parity or a
non-monotonic id fails with INVALID_STREAM for a local caller and PROTOCOL
for a remote peer, without creating a stream. -/
theorem c7_stream_new_parity_monotonic (conn : cno_connection_t) (id : Nat)
    (loc : Bool) :
    (∀ st conn2, cno_stream_new conn id loc = .ok (st, conn2) →
      (loc = cno_stream_is_local conn id ∧ lastStream conn loc < id ∧
        st.id = id ∧ lastStream conn2 loc = id)) ∧
    (cno_stream_is_local conn id ≠ loc →
      cno_stream_new conn id loc =
        .error (if loc then .INVALID_STREAM else .PROTOCOL)) ∧
    (cno_stream_is_local conn id = loc → id ≤ lastStream conn loc →
      cno_stream_new conn id loc =
        .error (if loc then .INVALID_STREAM else .PROTOCOL)) := by
  refine ⟨?_, ?_, ?_⟩
  · intro st conn2 h
    unfold cno_stream_new at h
    split at h
    · simp at h
    · next hp =>
      split at h
      · simp at h
      · next hmono =>
        dsimp only at h
        repeat' split at h
        all_goals first
          | exact Except.noConfusion h
          | (simp only [Except.ok.injEq, Prod.mk.injEq] at h
             obtain ⟨hst, hconn⟩ := h
             refine ⟨(not_ne_iff.mp hp).symm, by omega, ?_, ?_⟩
             · rw [← hst]
             · rw [← hconn]
               cases loc <;> simp_all [lastStream])
  · intro hp
    unfold cno_stream_new
    rw [if_pos hp]
  · intro hp hmono
    unfold cno_stream_new
    rw [if_neg (by simp [hp]), if_pos hmono]

/-- Witness for C7: on a client connection with last local stream 3,
creating local stream 2 fails on parity, local stream 3 fails on
monotonicity, and local stream 5 succeeds with the stated properties. -/
theorem c7_stream_new_parity_monotonic_witness :
    cno_stream_new conn3cex 2 true =
      .error (if true then CNO_ERRNO.INVALID_STREAM else CNO_ERRNO.PROTOCOL) ∧
    cno_stream_new conn3cex 3 true =
      .error (if true then CNO_ERRNO.INVALID_STREAM else CNO_ERRNO.PROTOCOL) ∧
    (true = cno_stream_is_local conn3cex 5 ∧ lastStream conn3cex true < 5 ∧
      ({ id := 5 } : cno_stream_t).id = 5 ∧
      lastStream
        { conn3cex with
            last_stream_local := 5
            streams := [{ id := 5 }, s3cex]
            stream_count_local := 2 }
        true = 5) :=
  ⟨(c7_stream_new_parity_monotonic conn3cex 2 true).2.1 (by decide),
   (c7_stream_new_parity_monotonic conn3cex 3 true).2.2 (by decide) (by decide),
   (c7_stream_new_parity_monotonic conn3cex 5 true).1 { id := 5 }
     { conn3cex with
         last_stream_local := 5
         streams := [{ id := 5 }, s3cex]
         stream_count_local := 2 }
     (by decide)⟩

/-! Claim C8: idempotent shutdown. -/

theorem conn_set_goaway_eq (c : cno_connection_t) (x : Nat)
    (h : c.goaway_sent = x) : { c with goaway_sent := x } = c := by
  cases c
  simp only at h
  subst h
  rfl

/-- Counterexample to C8 as stated: on an HTTP/2 connection the second
shutdown call emits a second, identical GOAWAY frame, so the wire trace of
two calls differs from that of one call. -/
theorem c8_connection_stop_counterexample :
    (cno_connection_stop conn8cex).frames ++
      (cno_connection_stop (cno_connection_stop conn8cex).conn).frames ≠
      (cno_connection_stop conn8cex).frames ∧
    (cno_connection_stop (cno_connection_stop conn8cex).conn).frames =
      (cno_connection_stop conn8cex).frames := by
  decide

/-- C8 (amended): the second shutdown call returns OK, leaves the
connection state exactly as after the first call, and re-emits the same
frames (on HTTP/2, one identical GOAWAY; on HTTP/1, nothing). -/
theorem c8_connection_stop_idempotent (conn : cno_connection_t)
    (h : 8 ≤ conn.settings_remote.max_frame_size) :
    (cno_connection_stop (cno_connection_stop conn).conn).conn =
      (cno_connection_stop conn).conn ∧
    (cno_connection_stop (cno_connection_stop conn).conn).ret = .ok () ∧
    (cno_connection_stop (cno_connection_stop conn).conn).frames =
      (cno_connection_stop conn).frames := by
  unfold cno_connection_stop cno_write_reset
  by_cases hm : conn.mode ≠ CNO_HTTP2
  · rw [if_pos hm]
    dsimp only
    rw [if_pos hm]
    exact ⟨rfl, rfl, rfl⟩
  · rw [if_neg hm, if_pos rfl]
    rw [cno_frame_write_goaway_spec conn CNO_RST_NO_ERROR h]
    dsimp only
    by_cases hg : conn.goaway_sent = 0
    · rw [if_pos hg, if_pos hg]
      dsimp only
      rw [if_neg hm, if_pos rfl]
      rw [cno_frame_write_goaway_spec
        { conn with goaway_sent := conn.last_stream_remote } CNO_RST_NO_ERROR
        (by simpa using h)]
      dsimp only
      by_cases hl : conn.last_stream_remote = 0
      · rw [if_pos hl, if_pos hl]
        refine ⟨?_, rfl, rfl⟩
        exact conn_set_goaway_eq
          { conn with goaway_sent := conn.last_stream_remote }
          conn.last_stream_remote rfl
      · rw [if_neg hl, if_neg hl]
        exact ⟨rfl, rfl, rfl⟩
    · rw [if_neg hg, if_neg hg]
      rw [if_neg hm, if_pos rfl]
      rw [cno_frame_write_goaway_spec conn CNO_RST_NO_ERROR h]
      dsimp only
      rw [if_neg hg, if_neg hg]
      exact ⟨rfl, rfl, rfl⟩

/-- Witness for the amended C8 theorem on a concrete HTTP/2 connection. -/
theorem c8_connection_stop_idempotent_witness :
    8 ≤ conn8cex.settings_remote.max_frame_size ∧
    ((cno_connection_stop (cno_connection_stop conn8cex).conn).conn =
      (cno_connection_stop conn8cex).conn ∧
    (cno_connection_stop (cno_connection_stop conn8cex).conn).ret = .ok () ∧
    (cno_connection_stop (cno_connection_stop conn8cex).conn).frames =
      (cno_connection_stop conn8cex).frames) :=
  ⟨by decide, c8_connection_stop_idempotent conn8cex (by decide)⟩

/-! Claim C9: input on a closed connection. -/

/-- C9: cno_connection_data_received on a CLOSED connection returns
DISCONNECT and changes nothing — the bytes are not buffered, no frames are
written and no callbacks fire — whatever the per-state handler table does. -/
theorem c9_data_received_closed (step : cno_connection_t → cno_step_out)
    (fuel : Nat) (conn : cno_connection_t) (data : List Nat)
    (h : conn.state = CNO_STATE_CLOSED) :
    cno_connection_data_received step fuel conn data =
      ⟨.error .DISCONNECT, conn, [], []⟩ := by
  unfold cno_connection_data_received
  rw [if_pos h]

/-- Witness for C9 at a freshly initialized connection and a trivial
handler table. -/
theorem c9_data_received_closed_witness :
    connClosed.state = CNO_STATE_CLOSED ∧
    cno_connection_data_received cno_step_noop 5 connClosed [1, 2, 3] =
      ⟨.error .DISCONNECT, connClosed, [], []⟩ :=
  ⟨rfl, c9_data_received_closed cno_step_noop 5 connClosed [1, 2, 3] rfl⟩

/-! Claim C10: the decimal parser. -/

theorem foldl_dec_ge (l : List Nat) :
    ∀ a, a ≤ l.foldl (fun x c => x * 10 + (c - 48)) a := by
  induction l with
  | nil => intro a; simp
  | cons c t ih =>
    intro a
    simp only [List.foldl]
    exact le_trans (by omega) (ih (a * 10 + (c - 48)))

theorem parse_loop_digits (l : List Nat) :
    ∀ a, (∀ c ∈ l, 48 ≤ c ∧ c ≤ 57) →
      l.foldl (fun x c => x * 10 + (c - 48)) a < U64_MOD →
      cno_parse_uint_loop a l = l.foldl (fun x c => x * 10 + (c - 48)) a := by
  induction l with
  | nil => intro a _ _; rfl
  | cons c t ih =>
    intro a hd hlt
    unfold cno_parse_uint_loop
    rw [if_neg (by have := hd c (by simp); omega)]
    dsimp only
    simp only [List.foldl] at hlt
    have hstep := foldl_dec_ge t (a * 10 + (c - 48))
    have hmod : (a * 10 + (c - 48)) % U64_MOD = a * 10 + (c - 48) :=
      Nat.mod_eq_of_lt (by omega)
    rw [hmod]
    rw [if_neg (by omega)]
    exact ih _ (fun x hx => hd x (by simp [hx])) hlt

theorem parse_loop_nondigit (l : List Nat) :
    ∀ a, (∃ c ∈ l, c < 48 ∨ 57 < c) → cno_parse_uint_loop a l = UINT64_MAX := by
  induction l with
  | nil =>
    intro a h
    simp at h
  | cons c t ih =>
    intro a h
    unfold cno_parse_uint_loop
    split
    · rfl
    · next hc =>
      dsimp only
      split
      · rfl
      · rcases h with ⟨d, hdmem, hdr⟩
        rcases List.mem_cons.mp hdmem with rfl | hdt
        · exact absurd hdr hc
        · exact ih _ ⟨d, hdt, hdr⟩

/-- Counterexample to C10 as stated: parsing the decimal digit string
20496382304121724019 — whose value exceeds 2^64 — does not return
(uint64_t)-1: the ret-less-than-prev wrap check fails to fire and the
function returns the wrapped value 2049638230412172403, which is neither
the sentinel nor the decimal value. -/
theorem c10_parse_uint_counterexample :
    cno_parse_uint c10digits = 2049638230412172403 ∧
    allDigits c10digits ∧
    decimalValue c10digits = 20496382304121724019 ∧
    U64_MOD ≤ decimalValue c10digits ∧
    cno_parse_uint c10digits ≠ UINT64_MAX ∧
    cno_parse_uint c10digits ≠ decimalValue c10digits := by
  decide

/-- C10 (amended): cno_parse_uint returns the decimal value of an
all-digit string whose value fits in 64 bits (hence 0 for the empty
buffer, and an empty content-length value is accepted as a declared length
of 0), and returns (uint64_t)-1 whenever a byte outside the digits
appears; some 64-bit overflows escape the wrap check (see the
counterexample). -/
theorem c10_parse_uint_amended (value : List Nat) :
    (allDigits value → decimalValue value < U64_MOD →
      cno_parse_uint value = decimalValue value) ∧
    ((∃ c ∈ value, c < 48 ∨ 57 < c) → cno_parse_uint value = UINT64_MAX) ∧
    cno_parse_uint [] = 0 ∧
    (cno_frame_handle_message true CNO_FRAME_HEADERS 0 { id := 1 }
      [⟨hSTATUS, [50, 48, 48]⟩, ⟨hCONTENT_LENGTH, []⟩]).remaining = 0 ∧
    (cno_frame_handle_message true CNO_FRAME_HEADERS 0 { id := 1 }
      [⟨hSTATUS, [50, 48, 48]⟩, ⟨hCONTENT_LENGTH, []⟩]).rst = none := by
  refine ⟨?_, ?_, rfl, by decide, by decide⟩
  · intro hdig hlt
    exact parse_loop_digits value 0 hdig hlt
  · intro h
    exact parse_loop_nondigit value 0 h

/-- Witness for the amended C10 theorem at the digit string 12. -/
theorem c10_parse_uint_amended_witness :
    allDigits [49, 50] ∧ decimalValue [49, 50] < U64_MOD ∧
    cno_parse_uint [49, 50] = decimalValue [49, 50] :=
  ⟨by decide, by decide,
    (c10_parse_uint_amended [49, 50]).1 (by decide) (by decide)⟩
